import Mathlib

/-!
# Waypoint navigator (`drone_3d_nav/src/navigate.cpp`)

A shallow embedding of `navigate::Navigator`: its constructor, `waypointCallback`,
`poseCallback`, `controlYaw` and `clamp`.

Conventions of the embedding.

* Numbers (`float`, `double`) are elements of a linearly ordered field `K`; rounding and
  overflow are not modelled.  A variable that receives the result of a division is a `Val K`: a
  number, or what a division by zero produces, `+inf`, `-inf` (nonzero numerator) or NaN
  (`0/0`), with the IEEE 754 rules for sums, products and comparisons of these.
* `_number_of_waypoints` and `_waypoint_number` are `Int` (trajectory sizes are assumed to stay
  below `2^31`, so no wrap-around is modelled).
* A quaternion is represented by the yaw angle `tf2::impl::getYaw` extracts from it, and a
  trajectory point by its `transforms[0]`, the only part the callback reads.
* `std::queue::front`/`pop` on an empty queue is undefined behaviour; the embedding reports it as
  `Fault.emptyQueue`.
* The parameter server, `ros::Time::now()` and `cos`/`sin` are inputs of the callbacks.
-/

namespace navigate

/-- Undefined behaviour the callbacks can run into. -/
inductive Fault where
  | emptyQueue
  deriving DecidableEq

/-- The content of a `float` or `double` that a division by zero may have reached: a number,
`+inf`, `-inf` or NaN. -/
inductive Val (K : Type) where
  | fin (x : K)
  | pinf
  | ninf
  | nan
  deriving DecidableEq

/-- Message type `geometry_msgs::Vector3`. -/
structure Vector3 (K : Type) where
  x : K
  y : K
  z : K
  deriving DecidableEq

/-- Message type `geometry_msgs::Transform`; `rotation` is the yaw of the quaternion. -/
structure Transform (K : Type) where
  translation : Vector3 K
  rotation : K
  deriving DecidableEq

/-- Message type `geometry_msgs::Twist`; its components are assigned from the actions, which a
division by zero may have reached. -/
structure Twist (K : Type) where
  linear : Vector3 (Val K)
  angular : Vector3 (Val K)
  deriving DecidableEq

/-- Message type `geometry_msgs::TwistStamped` (header stamp and twist). -/
structure TwistStamped (K : Type) where
  stamp : K
  twist : Twist K
  deriving DecidableEq

/-- Message type `geometry_msgs::PoseStamped`, as far as `poseCallback` reads it. -/
structure PoseStamped (K : Type) where
  position : Vector3 K
  orientation : K
  deriving DecidableEq

/-- Contents of the ROS parameter server: `none` for a parameter that is not set. -/
structure ParamServer (K : Type) where
  x_kp : Option K
  x_ki : Option K
  x_kd : Option K
  y_kp : Option K
  y_ki : Option K
  y_kd : Option K
  z_kp : Option K
  z_ki : Option K
  z_kd : Option K
  yaw_kp : Option K
  yaw_ki : Option K
  yaw_kd : Option K
  max_speed_translational : Option K
  max_speed_rotational : Option K
  tolerance : Option K
  yaw_tolerance : Option K

/-- A parameter server on which none of the parameters is set. -/
def ParamServer.unset {K : Type} : ParamServer K :=
  ⟨none, none, none, none, none, none, none, none, none, none, none, none, none, none, none, none⟩

/-- The call `_nh.param(name, var, dflt)`: the stored value, or the default. -/
def param {K : Type} (stored : Option K) (dflt : K) : K :=
  stored.getD dflt

/-- The functions `cos` and `sin` of the C library. -/
structure Libm (K : Type) where
  cos : K → K
  sin : K → K

/-- What one callback invocation publishes: `/cmd_vel`, `/cmd_vel/stamped`, `/goal_reached`. -/
structure Output (K : Type) where
  vel : Option (Twist K)
  stamped_vel : Option (TwistStamped K)
  goal_reached : Option Bool
  deriving DecidableEq

/-- One pose update: the message and the two clock readings taken while handling it. -/
structure PoseEvent (K : Type) where
  now : K
  stamp : K
  msg : PoseStamped K

/-- The member variables of `navigate::Navigator` that the callbacks use. -/
structure Navigator (K : Type) where
  x_kp : K
  x_ki : K
  x_kd : K
  y_kp : K
  y_ki : K
  y_kd : K
  z_kp : K
  z_ki : K
  z_kd : K
  yaw_kp : K
  yaw_ki : K
  yaw_kd : K
  trans_max_speed : K
  rot_max_speed : K
  waypoints : List (Transform K)
  number_of_waypoints : Int
  waypoints_received : Bool
  hovering : Bool
  current_goal : Transform K
  tolerance : K
  yaw_tolerance : K
  dt : K
  error_x : K
  error_y : K
  error_z : K
  error_yaw : K
  prev_error_x : K
  prev_error_y : K
  prev_error_z : K
  prev_error_yaw : K
  rise : K
  proportional_x : K
  proportional_y : K
  proportional_z : K
  proportional_yaw : K
  integral_x : K
  integral_y : K
  integral_z : K
  integral_yaw : K
  derivative_x : Val K
  derivative_y : Val K
  derivative_z : Val K
  derivative_yaw : Val K
  action_x : Val K
  action_y : Val K
  action_z : Val K
  action_yaw : Val K
  pose : Transform K
  twist : Twist K
  twist_stamped : TwistStamped K
  must_exit : Bool
  waypoint_number : Int

section Model

variable {K : Type} [LinearOrderedField K]

/-- The all-zero transform a default-constructed message holds. -/
def Transform.zero : Transform K :=
  ⟨⟨0, 0, 0⟩, 0⟩

/-- The all-zero twist a default-constructed message holds. -/
def Twist.zero : Twist K :=
  ⟨⟨.fin 0, .fin 0, .fin 0⟩, ⟨.fin 0, .fin 0, .fin 0⟩⟩

/-- The constructor `Navigator::Navigator()` (lines 5-70).  It leaves `_number_of_waypoints`,
`_tolerance` and `_yaw_tolerance` uninitialised: `n0`, `tol0`, `ytol0` are whatever they hold. -/
def Navigator.init (ps : ParamServer K) (n0 : Int) (tol0 ytol0 : K) : Navigator K where
  x_kp := param ps.x_kp (1 / 2)
  x_ki := param ps.x_ki 0
  x_kd := param ps.x_kd 0
  y_kp := param ps.y_kp (1 / 2)
  y_ki := param ps.y_ki 0
  y_kd := param ps.y_kd 0
  z_kp := param ps.z_kp (1 / 2)
  z_ki := param ps.z_ki 0
  z_kd := param ps.z_kd 0
  yaw_kp := param ps.yaw_kp (1 / 2)
  yaw_ki := param ps.yaw_ki 0
  yaw_kd := param ps.yaw_kd 0
  trans_max_speed := param ps.max_speed_translational 2
  rot_max_speed := param ps.max_speed_rotational 2
  waypoints := []
  number_of_waypoints := n0
  waypoints_received := false
  hovering := false
  current_goal := Transform.zero
  tolerance := tol0
  yaw_tolerance := ytol0
  dt := 0
  error_x := 0
  error_y := 0
  error_z := 0
  error_yaw := 0
  prev_error_x := 0
  prev_error_y := 0
  prev_error_z := 0
  prev_error_yaw := 0
  rise := 1
  proportional_x := 0
  proportional_y := 0
  proportional_z := 0
  proportional_yaw := 0
  integral_x := 0
  integral_y := 0
  integral_z := 0
  integral_yaw := 0
  derivative_x := .fin 0
  derivative_y := .fin 0
  derivative_z := .fin 0
  derivative_yaw := .fin 0
  action_x := .fin 0
  action_y := .fin 0
  action_z := .fin 0
  action_yaw := .fin 0
  pose := Transform.zero
  twist := Twist.zero
  twist_stamped := ⟨0, Twist.zero⟩
  must_exit := false
  waypoint_number := 0

/-- The sum of two floating-point contents: `inf + (-inf)` and any sum with NaN are NaN. -/
def Val.add : Val K → Val K → Val K
  | .fin a, .fin b => .fin (a + b)
  | .fin _, .pinf => .pinf
  | .fin _, .ninf => .ninf
  | .pinf, .fin _ => .pinf
  | .pinf, .pinf => .pinf
  | .ninf, .fin _ => .ninf
  | .ninf, .ninf => .ninf
  | _, _ => .nan

/-- The difference of two floating-point contents: `inf - inf` and any difference with NaN are
NaN. -/
def Val.sub : Val K → Val K → Val K
  | .fin a, .fin b => .fin (a - b)
  | .fin _, .pinf => .ninf
  | .fin _, .ninf => .pinf
  | .pinf, .fin _ => .pinf
  | .pinf, .ninf => .pinf
  | .ninf, .fin _ => .ninf
  | .ninf, .pinf => .ninf
  | _, _ => .nan

/-- The product of a floating-point content and a number: `±inf * 0` and `NaN * c` are NaN. -/
def Val.mul : Val K → K → Val K
  | .fin a, c => .fin (a * c)
  | .pinf, c => if c > 0 then .pinf else if c < 0 then .ninf else .nan
  | .ninf, c => if c > 0 then .ninf else if c < 0 then .pinf else .nan
  | .nan, _ => .nan

/-- The content is a number. -/
def Val.isFin : Val K → Bool
  | .fin _ => true
  | _ => false

/-- The quotient `a / b` of the source.  For `b = 0` (the `+0.0` a difference of equal clock
readings is) it is `+inf` or `-inf` with the sign of a nonzero `a`, and NaN for `a = 0`. -/
def fdiv (a b : K) : Val K :=
  if b = 0 then (if a > 0 then .pinf else if a < 0 then .ninf else .nan) else .fin (a / b)

/-- The expression `(action > 0) - (action < 0)` of line 257: the sign of `action`. -/
def sign (action : K) : K :=
  (if action > 0 then 1 else 0) - (if action < 0 then 1 else 0)

/-- The function `Navigator::clamp` (lines 252-260) on a number: the new content of
`action`. -/
def clamp (action max_action : K) : K :=
  if |action| > max_action then sign action * max_action else action

/-- The function `Navigator::clamp` (lines 252-260) on a variable a division by zero may have
reached.  `fabs(±inf) > max_action` holds and the sign expression of line 257 is `±1`, so `±inf`
becomes `±max_action`; `fabs(NaN) > max_action` is false, so NaN is left as it is. -/
def clampVal (action : Val K) (max_action : K) : Val K :=
  match action with
  | .fin a => .fin (clamp a max_action)
  | .pinf => .fin ((1 - 0) * max_action)
  | .ninf => .fin ((0 - 1) * max_action)
  | .nan => .nan

/-- The function `Navigator::waypointCallback` (lines 76-101); `points` lists
`msg->points[i].transforms[0]`.  Lines 82-91 empty the queue and push every point, so the queue
is `points` when line 93 calls `front()`. -/
def waypointCallback (ps : ParamServer K) (s : Navigator K) (points : List (Transform K)) :
    Except Fault (Navigator K) :=
  match points with
  | [] => .error Fault.emptyQueue
  | w :: rest =>
    .ok { s with
      waypoint_number := 1
      number_of_waypoints := ((w :: rest).length : Int)
      current_goal := w
      waypoints := rest
      waypoints_received := true
      must_exit := false
      hovering := false
      tolerance := param ps.tolerance (15 / 100)
      yaw_tolerance := param ps.yaw_tolerance (5 / 100) }

/-- Lines 112-116 of `poseCallback`: store the pose of the message. -/
def storePose (s : Navigator K) (msg : PoseStamped K) : Navigator K :=
  { s with pose := ⟨⟨msg.position.x, msg.position.y, msg.position.z⟩, msg.orientation⟩ }

/-- Lines 127-152 of `poseCallback`: elapsed time, position errors and the three position PID
sums (the actions before clamping).  Each `let` is one assignment of the source, in its order;
the new values are stored together at the end. -/
def positionPid (now : K) (s : Navigator K) : Navigator K :=
  let dt := now - s.dt
  let error_x := s.current_goal.translation.x - s.pose.translation.x
  let error_y := s.current_goal.translation.y - s.pose.translation.y
  let error_z := s.current_goal.translation.z - s.pose.translation.z
  let proportional_x := s.x_kp * error_x
  let proportional_y := s.y_kp * error_y
  let proportional_z := s.z_kp * error_z
  let integral_x := s.x_ki * (s.integral_x + error_x * dt)
  let integral_y := s.y_ki * (s.integral_y + error_y * dt)
  let integral_z := s.z_ki * (s.integral_z + error_z * dt)
  let derivative_x := fdiv (s.x_kd * (error_x - s.prev_error_x)) dt
  let derivative_y := fdiv (s.y_kd * (error_y - s.prev_error_y)) dt
  let derivative_z := fdiv (s.z_kd * (error_z - s.prev_error_z)) dt
  { s with
    dt := dt
    error_x := error_x
    error_y := error_y
    error_z := error_z
    proportional_x := proportional_x
    proportional_y := proportional_y
    proportional_z := proportional_z
    integral_x := integral_x
    integral_y := integral_y
    integral_z := integral_z
    derivative_x := derivative_x
    derivative_y := derivative_y
    derivative_z := derivative_z
    prev_error_x := error_x
    prev_error_y := error_y
    prev_error_z := error_z
    action_x := Val.add (.fin (proportional_x + integral_x)) derivative_x
    action_y := Val.add (.fin (proportional_y + integral_y)) derivative_y
    action_z := Val.add (.fin (proportional_z + integral_z)) derivative_z }

/-- Lines 155-157 of `poseCallback`: clamp the three actions. -/
def clampActions (s : Navigator K) : Navigator K :=
  { s with
    action_x := clampVal s.action_x s.trans_max_speed
    action_y := clampVal s.action_y s.trans_max_speed
    action_z := clampVal s.action_z s.trans_max_speed }

/-- Lines 161-162 of `poseCallback`: the rotation into the drone frame.  Line 162 reads the
`_action_x` that line 161 has just written. -/
def rotateActions (libm : Libm K) (pose_yaw : K) (s : Navigator K) : Navigator K :=
  let action_x :=
    Val.add (s.action_x.mul (libm.cos pose_yaw)) (s.action_y.mul (libm.sin pose_yaw))
  let action_y :=
    Val.sub (s.action_y.mul (libm.cos pose_yaw)) (action_x.mul (libm.sin pose_yaw))
  { s with action_x := action_x, action_y := action_y }

/-- Lines 164-169 of `poseCallback`: the translational twist. -/
def fillTwist (s : Navigator K) : Navigator K :=
  { s with twist := ⟨⟨s.action_x, s.action_y, s.action_z⟩, ⟨.fin 0, .fin 0, .fin 0⟩⟩ }

/-- Lines 236-240 of `controlYaw`: the yaw PID sum (the action before clamping). -/
def yawPid (dt : K) (s : Navigator K) : Navigator K :=
  let proportional_yaw := s.yaw_kp * s.error_yaw
  let integral_yaw := s.yaw_ki * (s.integral_yaw + s.error_yaw * dt)
  let derivative_yaw := fdiv (s.yaw_kd * (s.error_yaw - s.prev_error_yaw)) dt
  { s with
    proportional_yaw := proportional_yaw
    integral_yaw := integral_yaw
    derivative_yaw := derivative_yaw
    prev_error_yaw := s.error_yaw
    action_yaw := Val.add (.fin (proportional_yaw + integral_yaw)) derivative_yaw }

/-- Lines 241-247 of `controlYaw`: clamp the yaw action and overwrite the twist. -/
def yawTwist (s : Navigator K) : Navigator K :=
  let action_yaw := clampVal s.action_yaw s.rot_max_speed
  { s with
    action_yaw := action_yaw
    twist := ⟨⟨.fin 0, .fin 0, .fin 0⟩, ⟨.fin 0, .fin 0, action_yaw⟩⟩ }

/-- Line 229 of `controlYaw`: the yaw error. -/
def yawError (current_goal_yaw pose_yaw : K) (s : Navigator K) : Navigator K :=
  { s with error_yaw := current_goal_yaw - pose_yaw }

/-- The function `Navigator::controlYaw` (lines 227-250): the returned flag and the new state. -/
def controlYaw (current_goal_yaw pose_yaw dt : K) (s : Navigator K) : Bool × Navigator K :=
  let s := yawError current_goal_yaw pose_yaw s
  if |s.error_yaw| ≤ s.yaw_tolerance then (true, s)
  else (false, yawTwist (yawPid dt s))

/-- Lines 211-218 of `poseCallback`: when the tracked index equals the waypoint count, set the
pending-exit flag and halve the tolerance read from the parameter server. -/
def finalCheck (ps : ParamServer K) (s : Navigator K) : Navigator K :=
  if s.waypoint_number = s.number_of_waypoints then
    { s with must_exit := true, tolerance := param ps.tolerance (15 / 100) / 2 }
  else s

/-- Lines 211-224 of `poseCallback`: the index check, the tightened tolerance and the two
velocity publications; `goal_reached` is what the cycle has already published on
`/goal_reached`. -/
def publishVelocity (ps : ParamServer K) (stamp : K) (goal_reached : Option Bool)
    (s : Navigator K) : Navigator K × Output K :=
  let s := finalCheck ps s
  let s := { s with twist_stamped := ⟨stamp, s.twist⟩ }
  (s, ⟨some s.twist, some s.twist_stamped, goal_reached⟩)

/-- The condition of line 177: every position error is within `_tolerance`. -/
def withinTolerance (s : Navigator K) : Bool :=
  decide (|s.error_x| ≤ s.tolerance) && decide (|s.error_y| ≤ s.tolerance)
    && decide (|s.error_z| ≤ s.tolerance)

/-- Lines 196-206 of `poseCallback`: the next-waypoint branch, `front()` and `pop()` on
`_waypoints`. -/
def nextWaypoint (s : Navigator K) : Except Fault (Navigator K) :=
  match s.waypoints with
  | [] => .error Fault.emptyQueue
  | w :: rest =>
    .ok { s with
      current_goal := w
      waypoints := rest
      waypoint_number := s.waypoint_number + 1
      rise := s.rise + 1 }

/-- Lines 185-186 of `poseCallback`: the flags of the hovering state. -/
def enterHovering (s : Navigator K) : Navigator K :=
  { s with hovering := true, waypoints_received := false }

/-- Lines 177-225 of `poseCallback`: the arrival test and what follows it. -/
def arrival (ps : ParamServer K) (stamp current_goal_yaw pose_yaw : K) (s : Navigator K) :
    Except Fault (Navigator K × Output K) :=
  if withinTolerance s then
    let r := controlYaw current_goal_yaw pose_yaw s.dt s
    let s := r.2
    if r.1 then
      if s.must_exit && !s.hovering then
        .ok (publishVelocity ps stamp (some true) (enterHovering s))
      else if s.must_exit && s.hovering then
        .ok (s, ⟨none, none, none⟩)
      else
        (nextWaypoint s).map fun s => (s, ⟨none, none, none⟩)
    else .ok (publishVelocity ps stamp none s)
  else .ok (publishVelocity ps stamp none s)

/-- Lines 112-169 of `poseCallback`: the state when control reaches the arrival test of
line 177. -/
def beforeArrival (libm : Libm K) (s : Navigator K) (ev : PoseEvent K) : Navigator K :=
  let s := storePose s ev.msg
  let pose_yaw := s.pose.rotation
  let s := positionPid ev.now s
  let s := clampActions s
  let s := rotateActions libm pose_yaw s
  fillTwist s

/-- The function `Navigator::poseCallback` (lines 103-225).  `current_goal_yaw` and `pose_yaw`
are the yaws of `_current_goal.rotation` and of the orientation of the message. -/
def poseCallback (ps : ParamServer K) (libm : Libm K) (s : Navigator K) (ev : PoseEvent K) :
    Except Fault (Navigator K × Output K) :=
  if !s.waypoints_received && !s.hovering then .ok (s, ⟨none, none, none⟩)
  else
    arrival ps ev.stamp s.current_goal.rotation ev.msg.orientation (beforeArrival libm s ev)

/-- The tests of lines 177 and 230 as a cycle starting in `s` evaluates them for the pose of
`msg`: the three position errors are within `_tolerance` and the yaw error is within
`_yaw_tolerance`. -/
def inTolerance (s : Navigator K) (msg : PoseStamped K) : Prop :=
  |s.current_goal.translation.x - msg.position.x| ≤ s.tolerance ∧
  |s.current_goal.translation.y - msg.position.y| ≤ s.tolerance ∧
  |s.current_goal.translation.z - msg.position.z| ≤ s.tolerance ∧
  |s.current_goal.rotation - msg.orientation| ≤ s.yaw_tolerance

/-- Every component of the twist is a number: none of them is `+inf`, `-inf` or NaN. -/
def Twist.defined (tw : Twist K) : Bool :=
  tw.linear.x.isFin && tw.linear.y.isFin && tw.linear.z.isFin &&
    tw.angular.x.isFin && tw.angular.y.isFin && tw.angular.z.isFin

/-- One handled pose update: the state before, the update, the state after, what was published. -/
structure Cycle (K : Type) where
  pre : Navigator K
  ev : PoseEvent K
  post : Navigator K
  out : Output K

/-- The pose updates handled one after the other from state `s`, up to the first one that runs
into undefined behaviour. -/
def runPoses (ps : ParamServer K) (libm : Libm K) :
    Navigator K → List (PoseEvent K) → List (Cycle K)
  | _, [] => []
  | s, ev :: evs =>
    match poseCallback ps libm s ev with
    | .error _ => []
    | .ok (s', o) => ⟨s, ev, s', o⟩ :: runPoses ps libm s' evs

/-- The bookkeeping of a navigator that follows the trajectory `ws` under the parameters `ps`:
`_waypoint_number` entries of `ws` have left the queue, the last of them is the active goal, the
pending-exit flag is only set at the last waypoint and with the halved tolerance, and hovering
is only entered with the flag set. -/
structure Inv (ps : ParamServer K) (ws : List (Transform K)) (s : Navigator K) : Prop where
  total : s.number_of_waypoints = ws.length
  index_pos : 1 ≤ s.waypoint_number
  index_le : s.waypoint_number ≤ ws.length
  queue : s.waypoints = ws.drop s.waypoint_number.toNat
  goal : ws[s.waypoint_number.toNat - 1]? = some s.current_goal
  exit_index : s.must_exit = true → s.waypoint_number = ws.length
  exit_tolerance : s.must_exit = true → s.tolerance = param ps.tolerance (15 / 100) / 2
  hovering_exit : s.hovering = true → s.must_exit = true

/-- Two states agree on the fields that sequence the waypoints. -/
structure SameCtl (a b : Navigator K) : Prop where
  waypoints : a.waypoints = b.waypoints
  number_of_waypoints : a.number_of_waypoints = b.number_of_waypoints
  waypoint_number : a.waypoint_number = b.waypoint_number
  current_goal : a.current_goal = b.current_goal
  must_exit : a.must_exit = b.must_exit
  hovering : a.hovering = b.hovering
  waypoints_received : a.waypoints_received = b.waypoints_received
  tolerance : a.tolerance = b.tolerance
  yaw_tolerance : a.yaw_tolerance = b.yaw_tolerance

end Model

/-! ## Sample data -/

/-- The values of `cos` and `sin` at yaw `0`, for runs in which every pose has yaw `0`. -/
def Libm.yawZero : Libm ℚ :=
  ⟨fun _ => 1, fun _ => 0⟩

/-- A freshly constructed navigator with no parameter set. -/
def fresh : Navigator ℚ :=
  Navigator.init ParamServer.unset 0 0 0

/-- A waypoint at `(x, 0, 0)` with yaw `0`. -/
def waypointAt (x : ℚ) : Transform ℚ :=
  ⟨⟨x, 0, 0⟩, 0⟩

/-- A pose update at `(x, 0, 0)` with yaw `0`, handled at time `t`. -/
def poseAt (t x : ℚ) : PoseEvent ℚ :=
  ⟨t, t, ⟨⟨x, 0, 0⟩, 0⟩⟩

/-- A navigator hovering on the single waypoint `(1, 0, 0)` of its trajectory. -/
def hoveringAtOne : Navigator ℚ :=
  { fresh with
    current_goal := waypointAt 1
    number_of_waypoints := 1
    waypoint_number := 1
    tolerance := 3 / 40
    yaw_tolerance := 1 / 20
    must_exit := true
    hovering := true }

/-- A navigator tracking the first waypoint `(0, 0, 0)` of a two-waypoint trajectory, with
`(1, 0, 0)` still queued. -/
def trackingAtZero : Navigator ℚ :=
  { fresh with
    current_goal := waypointAt 0
    waypoints := [waypointAt 1]
    number_of_waypoints := 2
    waypoint_number := 1
    waypoints_received := true
    tolerance := 3 / 20
    yaw_tolerance := 1 / 20 }

/-- The navigator `trackingAtZero` with derivative gain `1` on the three position axes. -/
def trackingWithDerivative : Navigator ℚ :=
  { trackingAtZero with x_kd := 1, y_kd := 1, z_kd := 1 }

/-! ## Lemmas on the stages of a cycle -/

theorem SameCtl.refl {K : Type} (a : Navigator K) : SameCtl a a :=
  ⟨rfl, rfl, rfl, rfl, rfl, rfl, rfl, rfl, rfl⟩

theorem SameCtl.trans {K : Type} {a b c : Navigator K} (h : SameCtl a b) (h' : SameCtl b c) :
    SameCtl a c :=
  ⟨h.1.trans h'.1, h.2.trans h'.2, h.3.trans h'.3, h.4.trans h'.4, h.5.trans h'.5,
    h.6.trans h'.6, h.7.trans h'.7, h.8.trans h'.8, h.9.trans h'.9⟩

section Lemmas

variable {K : Type} [LinearOrderedField K]

theorem Inv.of_sameCtl {ps : ParamServer K} {ws : List (Transform K)} {a b : Navigator K}
    (h : SameCtl a b) (hb : Inv ps ws b) : Inv ps ws a := by
  obtain ⟨h1, h2, h3, h4, h5, h6, _, h8, _⟩ := h
  obtain ⟨b1, b2, b3, b4, b5, b6, b7, b8⟩ := hb
  constructor
  · rw [h2]; exact b1
  · rw [h3]; exact b2
  · rw [h3]; exact b3
  · rw [h1, h3]; exact b4
  · rw [h3, h4]; exact b5
  · rw [h5, h3]; exact b6
  · rw [h5, h8]; exact b7
  · rw [h6, h5]; exact b8

theorem beforeArrival_sameCtl (libm : Libm K) (s : Navigator K) (ev : PoseEvent K) :
    SameCtl (beforeArrival libm s ev) s := by
  constructor <;>
    simp only [beforeArrival, storePose, positionPid, clampActions, rotateActions, fillTwist]

theorem beforeArrival_errors (libm : Libm K) (s : Navigator K) (ev : PoseEvent K) :
    (beforeArrival libm s ev).error_x = s.current_goal.translation.x - ev.msg.position.x ∧
    (beforeArrival libm s ev).error_y = s.current_goal.translation.y - ev.msg.position.y ∧
    (beforeArrival libm s ev).error_z = s.current_goal.translation.z - ev.msg.position.z := by
  simp only [beforeArrival, storePose, positionPid, clampActions, rotateActions, fillTwist,
    and_self]

theorem controlYaw_fst (gy py dt : K) (t : Navigator K) :
    (controlYaw gy py dt t).1 = decide (|gy - py| ≤ t.yaw_tolerance) := by
  unfold controlYaw
  simp only [yawError]
  split_ifs with h <;> simp [h]

theorem controlYaw_sameCtl (gy py dt : K) (t : Navigator K) :
    SameCtl (controlYaw gy py dt t).2 t := by
  unfold controlYaw
  simp only [yawError]
  split_ifs with h <;> constructor <;> simp only [yawTwist, yawPid]

theorem enterHovering_inv {ps : ParamServer K} {ws : List (Transform K)} {t : Navigator K}
    (h : Inv ps ws t) (hm : t.must_exit = true) : Inv ps ws (enterHovering t) := by
  obtain ⟨b1, b2, b3, b4, b5, b6, b7, b8⟩ := h
  exact ⟨b1, b2, b3, b4, b5, b6, b7, fun _ => hm⟩

theorem finalCheck_inv {ps : ParamServer K} {ws : List (Transform K)} {t : Navigator K}
    (h : Inv ps ws t) : Inv ps ws (finalCheck ps t) := by
  obtain ⟨b1, b2, b3, b4, b5, b6, b7, b8⟩ := h
  unfold finalCheck
  split_ifs with hn
  · exact ⟨b1, b2, b3, b4, b5, fun _ => hn.trans b1, fun _ => rfl, fun _ => rfl⟩
  · exact ⟨b1, b2, b3, b4, b5, b6, b7, b8⟩

theorem publishVelocity_inv {ps : ParamServer K} {ws : List (Transform K)} {t : Navigator K}
    (stamp : K) (g : Option Bool) (h : Inv ps ws t) :
    Inv ps ws (publishVelocity ps stamp g t).1 := by
  obtain ⟨b1, b2, b3, b4, b5, b6, b7, b8⟩ := finalCheck_inv h
  exact ⟨b1, b2, b3, b4, b5, b6, b7, b8⟩

theorem nextWaypoint_inv {ps : ParamServer K} {ws : List (Transform K)} {t t' : Navigator K}
    (h : Inv ps ws t) (hm : t.must_exit = false) (hr : nextWaypoint t = .ok t') :
    Inv ps ws t' := by
  obtain ⟨b1, b2, b3, b4, b5, b6, b7, b8⟩ := h
  unfold nextWaypoint at hr
  split at hr
  · cases hr
  · rename_i w rest hq
    cases hr
    have hk : t.waypoint_number.toNat < ws.length := by
      by_contra hc
      rw [b4, List.drop_eq_nil_of_le (not_lt.mp hc)] at hq
      cases hq
    have hk' : (t.waypoint_number + 1).toNat = t.waypoint_number.toNat + 1 := by omega
    have hh : t.hovering = false := by
      cases hv : t.hovering
      · rfl
      · rw [b8 hv] at hm; cases hm
    refine ⟨b1, by show (1 : Int) ≤ t.waypoint_number + 1; omega,
      by show t.waypoint_number + 1 ≤ ws.length; omega, ?_, ?_, ?_, ?_, ?_⟩
    · show rest = ws.drop (t.waypoint_number + 1).toNat
      rw [hk', ← List.drop_drop, ← b4, hq]
      rfl
    · show ws[(t.waypoint_number + 1).toNat - 1]? = some w
      rw [hk', Nat.add_sub_cancel]
      have := congrArg List.head? hq
      rw [b4] at this
      simpa [List.head?_drop] using this
    · intro hm'
      rw [hm] at hm'; cases hm'
    · intro hm'
      rw [hm] at hm'; cases hm'
    · intro hv
      rw [hh] at hv; cases hv


theorem withinTolerance_iff (t : Navigator K) :
    withinTolerance t = true ↔
      |t.error_x| ≤ t.tolerance ∧ |t.error_y| ≤ t.tolerance ∧ |t.error_z| ≤ t.tolerance := by
  simp [withinTolerance, and_assoc]

theorem publishVelocity_out (ps : ParamServer K) (stamp : K) (g : Option Bool) (t : Navigator K) :
    (publishVelocity ps stamp g t).2.goal_reached = g ∧
      (publishVelocity ps stamp g t).2.vel ≠ none ∧
      (publishVelocity ps stamp g t).1.hovering = t.hovering ∧
      (t.waypoint_number = t.number_of_waypoints →
        (publishVelocity ps stamp g t).1.must_exit = true ∧
        (publishVelocity ps stamp g t).1.tolerance = param ps.tolerance (15 / 100) / 2) := by
  unfold publishVelocity finalCheck
  refine ⟨rfl, by simp, ?_, ?_⟩
  · split_ifs <;> rfl
  · intro h
    simp [h]

/-- What a successful run of the arrival test does to the sequencing fields. -/
theorem arrival_step (ps : ParamServer K) (stamp gy py : K) (t t' : Navigator K) (o : Output K)
    (hr : arrival ps stamp gy py t = .ok (t', o)) :
    (∀ ws, Inv ps ws t → Inv ps ws t') ∧
    (t.hovering = true → t'.hovering = true) ∧
    (o.goal_reached ≠ none →
      o.goal_reached = some true ∧ t.must_exit = true ∧ t.hovering = false ∧
        t'.hovering = true ∧ withinTolerance t = true ∧ |gy - py| ≤ t.yaw_tolerance) ∧
    (o.vel ≠ none → t.waypoint_number = t.number_of_waypoints →
      t'.must_exit = true ∧ t'.tolerance = param ps.tolerance (15 / 100) / 2) := by
  have hc := controlYaw_sameCtl gy py t.dt t
  have hf := controlYaw_fst gy py t.dt t
  unfold arrival at hr
  dsimp only at hr
  split_ifs at hr with h1 h2 h3 h4
  · -- final waypoint reached: enter hovering
    simp only [Except.ok.injEq] at hr
    have ho := publishVelocity_out ps stamp (some true) (enterHovering (controlYaw gy py t.dt t).2)
    rw [hr] at ho
    simp only [Bool.and_eq_true, Bool.not_eq_true'] at h3
    refine ⟨fun ws hi => ?_, fun _ => ?_, fun _ => ?_, fun _ hn => ?_⟩
    · have := publishVelocity_inv stamp (some true)
        (enterHovering_inv (Inv.of_sameCtl hc hi) h3.1)
      rwa [hr] at this
    · exact ho.2.2.1
    · refine ⟨ho.1, hc.must_exit ▸ h3.1, hc.hovering ▸ h3.2, ho.2.2.1, h1, ?_⟩
      rw [hf] at h2
      exact of_decide_eq_true h2
    · exact ho.2.2.2 (by
        show (controlYaw gy py t.dt t).2.waypoint_number
          = (controlYaw gy py t.dt t).2.number_of_waypoints
        rw [hc.waypoint_number, hc.number_of_waypoints]; exact hn)
  · -- already hovering
    simp only [Except.ok.injEq, Prod.mk.injEq] at hr
    obtain ⟨rfl, rfl⟩ := hr
    simp only [Bool.and_eq_true] at h4
    refine ⟨fun ws hi => Inv.of_sameCtl hc hi, fun _ => h4.2, fun h => absurd rfl h,
      fun h => absurd rfl h⟩
  · -- next waypoint
    cases hn : nextWaypoint (controlYaw gy py t.dt t).2 with
    | error e => rw [hn] at hr; cases hr
    | ok u =>
      rw [hn] at hr
      simp only [Except.map, Except.ok.injEq, Prod.mk.injEq] at hr
      obtain ⟨rfl, rfl⟩ := hr
      have hm : (controlYaw gy py t.dt t).2.must_exit = false := by
        cases hme : (controlYaw gy py t.dt t).2.must_exit
        · rfl
        · cases hho : (controlYaw gy py t.dt t).2.hovering
          · simp [hme, hho] at h3
          · simp [hme, hho] at h4
      refine ⟨fun ws hi => nextWaypoint_inv (Inv.of_sameCtl hc hi) hm hn, fun hv => ?_,
        fun h => absurd rfl h, fun h => absurd rfl h⟩
      have : u.hovering = (controlYaw gy py t.dt t).2.hovering := by
        unfold nextWaypoint at hn
        split at hn
        · cases hn
        · cases hn; rfl
      rw [this, hc.hovering]; exact hv
  · -- yaw not aligned
    simp only [Except.ok.injEq] at hr
    have ho := publishVelocity_out ps stamp none (controlYaw gy py t.dt t).2
    rw [hr] at ho
    refine ⟨fun ws hi => ?_, fun hv => ?_, fun h => absurd ho.1 h, fun _ hn => ?_⟩
    · have := publishVelocity_inv stamp none (Inv.of_sameCtl hc hi)
      rwa [hr] at this
    · rw [ho.2.2.1, hc.hovering]; exact hv
    · exact ho.2.2.2 (by rw [hc.waypoint_number, hc.number_of_waypoints]; exact hn)
  · -- position not within tolerance
    simp only [Except.ok.injEq] at hr
    have ho := publishVelocity_out ps stamp none t
    rw [hr] at ho
    refine ⟨fun ws hi => ?_, fun hv => ?_, fun h => absurd ho.1 h, fun _ hn => ?_⟩
    · have := publishVelocity_inv stamp none hi
      rwa [hr] at this
    · rw [ho.2.2.1]; exact hv
    · exact ho.2.2.2 hn

theorem inTolerance_beforeArrival (libm : Libm K) (s : Navigator K) (ev : PoseEvent K) :
    inTolerance s ev.msg ↔ withinTolerance (beforeArrival libm s ev) = true ∧
      |s.current_goal.rotation - ev.msg.orientation| ≤ (beforeArrival libm s ev).yaw_tolerance := by
  obtain ⟨hx, hy, hz⟩ := beforeArrival_errors libm s ev
  have hc := beforeArrival_sameCtl libm s ev
  rw [withinTolerance_iff, hx, hy, hz, hc.tolerance, hc.yaw_tolerance]
  simp only [inTolerance, and_assoc]

/-- What a successful `poseCallback` does to the sequencing fields. -/
theorem poseCallback_step (ps : ParamServer K) (libm : Libm K) (s s' : Navigator K)
    (ev : PoseEvent K) (o : Output K) (hr : poseCallback ps libm s ev = .ok (s', o)) :
    (∀ ws, Inv ps ws s → Inv ps ws s') ∧
    (s.hovering = true → s'.hovering = true) ∧
    (o.goal_reached ≠ none →
      o.goal_reached = some true ∧ s.must_exit = true ∧ s.hovering = false ∧
        s'.hovering = true ∧ inTolerance s ev.msg) ∧
    (o.vel ≠ none → s.waypoint_number = s.number_of_waypoints →
      s'.must_exit = true ∧ s'.tolerance = param ps.tolerance (15 / 100) / 2) := by
  unfold poseCallback at hr
  split_ifs at hr with hg
  · simp only [Except.ok.injEq, Prod.mk.injEq] at hr
    obtain ⟨rfl, rfl⟩ := hr
    exact ⟨fun _ h => h, fun h => h, fun h => absurd rfl h, fun h => absurd rfl h⟩
  · have hc := beforeArrival_sameCtl libm s ev
    obtain ⟨a1, a2, a3, a4⟩ := arrival_step ps ev.stamp _ _ _ s' o hr
    refine ⟨fun ws hi => a1 ws (Inv.of_sameCtl hc hi), fun hv => a2 (hc.hovering.trans hv),
      fun hne => ?_, fun hne hn => a4 hne ?_⟩
    · obtain ⟨b1, b2, b3, b4, b5, b6⟩ := a3 hne
      exact ⟨b1, hc.must_exit ▸ b2, hc.hovering ▸ b3, b4,
        (inTolerance_beforeArrival libm s ev).mpr ⟨b5, b6⟩⟩
    · rw [hc.waypoint_number, hc.number_of_waypoints]; exact hn

/-- Every cycle of a run is a successful `poseCallback`, and the bookkeeping holds before it. -/
theorem runPoses_cycle (ps : ParamServer K) (libm : Libm K) (ws : List (Transform K))
    (evs : List (PoseEvent K)) :
    ∀ s, Inv ps ws s → ∀ c ∈ runPoses ps libm s evs,
      Inv ps ws c.pre ∧ poseCallback ps libm c.pre c.ev = .ok (c.post, c.out) := by
  induction evs with
  | nil => intro s _ c hc; simp [runPoses] at hc
  | cons ev evs ih =>
    intro s hi c hc
    unfold runPoses at hc
    cases hp : poseCallback ps libm s ev with
    | error e => rw [hp] at hc; simp at hc
    | ok r =>
      obtain ⟨s', o⟩ := r
      rw [hp] at hc
      simp only [List.mem_cons] at hc
      rcases hc with rfl | hc
      · exact ⟨hi, hp⟩
      · exact ih s' ((poseCallback_step ps libm s s' ev o hp).1 ws hi) c hc

/-- A run that starts hovering never publishes on `/goal_reached`. -/
theorem runPoses_hovering (ps : ParamServer K) (libm : Libm K) (evs : List (PoseEvent K)) :
    ∀ s, s.hovering = true → ∀ c ∈ runPoses ps libm s evs, c.out.goal_reached = none := by
  induction evs with
  | nil => intro s _ c hc; simp [runPoses] at hc
  | cons ev evs ih =>
    intro s hv c hc
    unfold runPoses at hc
    cases hp : poseCallback ps libm s ev with
    | error e => rw [hp] at hc; simp at hc
    | ok r =>
      obtain ⟨s', o⟩ := r
      rw [hp] at hc
      simp only [List.mem_cons] at hc
      obtain ⟨_, a2, a3, _⟩ := poseCallback_step ps libm s s' ev o hp
      rcases hc with rfl | hc
      · by_contra hne
        have := (a3 hne).2.2.1
        rw [hv] at this; cases this
      · exact ih s' (a2 hv) c hc

/-- A run publishes on `/goal_reached` at most once. -/
theorem runPoses_count (ps : ParamServer K) (libm : Libm K) (evs : List (PoseEvent K)) :
    ∀ s, ((runPoses ps libm s evs).filter fun c => c.out.goal_reached.isSome).length ≤ 1 := by
  induction evs with
  | nil => intro s; simp [runPoses]
  | cons ev evs ih =>
    intro s
    unfold runPoses
    cases hp : poseCallback ps libm s ev with
    | error e => simp
    | ok r =>
      obtain ⟨s', o⟩ := r
      obtain ⟨_, _, a3, _⟩ := poseCallback_step ps libm s s' ev o hp
      by_cases hne : o.goal_reached = none
      · simpa [List.filter_cons, hne] using ih s'
      · have hv := (a3 hne).2.2.2.1
        have hsil := runPoses_hovering ps libm evs s' hv
        have hnil : ((runPoses ps libm s' evs).filter
            fun c => c.out.goal_reached.isSome) = [] := by
          rw [List.filter_eq_nil_iff]
          intro c hc
          simp [hsil c hc]
        simp [List.filter_cons, hnil]
        split_ifs <;> simp

theorem Inv.last {ps : ParamServer K} {ws : List (Transform K)} {s : Navigator K}
    (h : Inv ps ws s) (hm : s.must_exit = true) : ws.getLast? = some s.current_goal := by
  have hn := h.exit_index hm
  have hg := h.goal
  rw [hn] at hg
  rw [List.getLast?_eq_getElem?]
  simpa using hg

theorem waypointCallback_inv (ps : ParamServer K) (s : Navigator K) (ws : List (Transform K))
    (hws : ws ≠ []) :
    ∃ s1, waypointCallback ps s ws = .ok s1 ∧ Inv ps ws s1 ∧
      s1.hovering = false ∧ s1.waypoints_received = true ∧ s1.must_exit = false ∧
      s1.waypoint_number = 1 ∧ s1.tolerance = param ps.tolerance (15 / 100) ∧
      s1.yaw_tolerance = param ps.yaw_tolerance (5 / 100) ∧
      ws[0]? = some s1.current_goal ∧ s1.waypoints = ws.drop 1 := by
  cases ws with
  | nil => exact absurd rfl hws
  | cons w rest =>
    refine ⟨_, rfl, ?_, rfl, rfl, rfl, rfl, rfl, rfl, by simp, by simp⟩
    constructor <;> simp

/-- A cycle that finds the goal reached branches on the two flags only. -/
theorem poseCallback_arrived (ps : ParamServer K) (libm : Libm K) (s : Navigator K)
    (ev : PoseEvent K) (hg : (!s.waypoints_received && !s.hovering) = false)
    (ht : inTolerance s ev.msg) :
    ∃ t, SameCtl t s ∧ poseCallback ps libm s ev =
      if s.must_exit && !s.hovering then
        .ok (publishVelocity ps ev.stamp (some true) (enterHovering t))
      else if s.must_exit && s.hovering then .ok (t, ⟨none, none, none⟩)
      else (nextWaypoint t).map fun u => (u, ⟨none, none, none⟩) := by
  have hb := beforeArrival_sameCtl libm s ev
  have hc := controlYaw_sameCtl s.current_goal.rotation ev.msg.orientation
    (beforeArrival libm s ev).dt (beforeArrival libm s ev)
  have hf := controlYaw_fst s.current_goal.rotation ev.msg.orientation
    (beforeArrival libm s ev).dt (beforeArrival libm s ev)
  obtain ⟨hw, hy⟩ := (inTolerance_beforeArrival libm s ev).mp ht
  refine ⟨_, hc.trans hb, ?_⟩
  unfold poseCallback
  rw [hg]
  unfold arrival
  dsimp only
  rw [hw, hf, decide_eq_true hy, hc.must_exit, hc.hovering, hb.must_exit, hb.hovering]
  simp

theorem nextWaypoint_nil (t : Navigator K) (hq : t.waypoints = []) :
    nextWaypoint t = .error Fault.emptyQueue := by
  unfold nextWaypoint
  rw [hq]

theorem nextWaypoint_cons (t : Navigator K) (w : Transform K) (rest : List (Transform K))
    (hq : t.waypoints = w :: rest) :
    ∃ u, nextWaypoint t = .ok u ∧ u.current_goal = w ∧ u.waypoints = rest ∧
      u.waypoint_number = t.waypoint_number + 1 ∧
      u.number_of_waypoints = t.number_of_waypoints ∧ u.must_exit = t.must_exit ∧
      u.hovering = t.hovering ∧ u.waypoints_received = t.waypoints_received ∧
      u.tolerance = t.tolerance ∧ u.yaw_tolerance = t.yaw_tolerance := by
  unfold nextWaypoint
  rw [hq]
  exact ⟨_, rfl, rfl, rfl, rfl, rfl, rfl, rfl, rfl, rfl, rfl⟩

/-- Arrival with the pending-exit flag clear and an empty queue is `front()` on an empty queue. -/
theorem poseCallback_empty_queue (ps : ParamServer K) (libm : Libm K) (s : Navigator K)
    (ev : PoseEvent K) (hg : (!s.waypoints_received && !s.hovering) = false)
    (ht : inTolerance s ev.msg) (hm : s.must_exit = false) (hq : s.waypoints = []) :
    poseCallback ps libm s ev = .error Fault.emptyQueue := by
  obtain ⟨t, hc, hp⟩ := poseCallback_arrived ps libm s ev hg ht
  rw [hp, hm, nextWaypoint_nil t (hc.waypoints.trans hq)]
  rfl

/-- Arrival with the pending-exit flag clear and a non-empty queue moves on to its front. -/
theorem poseCallback_next (ps : ParamServer K) (libm : Libm K) (s : Navigator K)
    (ev : PoseEvent K) (w : Transform K) (rest : List (Transform K))
    (hg : (!s.waypoints_received && !s.hovering) = false)
    (ht : inTolerance s ev.msg) (hm : s.must_exit = false) (hq : s.waypoints = w :: rest) :
    ∃ u, poseCallback ps libm s ev = .ok (u, ⟨none, none, none⟩) ∧ u.current_goal = w ∧
      u.waypoints = rest ∧ u.waypoint_number = s.waypoint_number + 1 ∧
      u.number_of_waypoints = s.number_of_waypoints ∧ u.must_exit = s.must_exit ∧
      u.hovering = s.hovering ∧ u.waypoints_received = s.waypoints_received ∧
      u.tolerance = s.tolerance ∧ u.yaw_tolerance = s.yaw_tolerance := by
  obtain ⟨t, hc, hp⟩ := poseCallback_arrived ps libm s ev hg ht
  obtain ⟨u, hu, h1, h2, h3, h4, h5, h6, h7, h8, h9⟩ :=
    nextWaypoint_cons t w rest (hc.waypoints.trans hq)
  refine ⟨u, ?_, h1, h2, h3.trans (by rw [hc.waypoint_number]),
    h4.trans hc.number_of_waypoints, h5.trans hc.must_exit, h6.trans hc.hovering,
    h7.trans hc.waypoints_received, h8.trans hc.tolerance, h9.trans hc.yaw_tolerance⟩
  rw [hp, hm, hu]
  rfl

/-- A cycle whose position error exceeds the tolerance goes straight to the publications. -/
theorem poseCallback_away (ps : ParamServer K) (libm : Libm K) (s : Navigator K)
    (ev : PoseEvent K) (hg : (!s.waypoints_received && !s.hovering) = false)
    (hx : ¬ |s.current_goal.translation.x - ev.msg.position.x| ≤ s.tolerance) :
    poseCallback ps libm s ev
      = .ok (publishVelocity ps ev.stamp none (beforeArrival libm s ev)) := by
  have hw : withinTolerance (beforeArrival libm s ev) = false := by
    rw [Bool.eq_false_iff]
    intro h
    rw [withinTolerance_iff, (beforeArrival_errors libm s ev).1,
      (beforeArrival_sameCtl libm s ev).tolerance] at h
    exact hx h.1
  unfold poseCallback
  rw [hg]
  unfold arrival
  rw [hw]
  rfl

/-- The sign expression of line 257 on a positive, a negative and a zero action. -/
theorem sign_pos {a : K} (h : 0 < a) : sign a = 1 := by
  simp [sign, h, not_lt_of_gt h]

theorem sign_neg {a : K} (h : a < 0) : sign a = -1 := by
  simp [sign, h, not_lt_of_gt h]

theorem sign_zero : sign (0 : K) = 0 := by
  simp [sign]

theorem abs_sign_le_one (a : K) : |sign a| ≤ 1 := by
  rcases lt_trichotomy a 0 with h | h | h
  · rw [sign_neg h]; simp
  · subst h; rw [sign_zero]; simp
  · rw [sign_pos h]; simp

theorem fdiv_zero_left (b : K) (hb : b ≠ 0) : fdiv 0 b = .fin 0 := by
  simp [fdiv, hb]

theorem Val.nan_add (v : Val K) : Val.add .nan v = .nan := by
  cases v <;> rfl

theorem Val.add_nan (v : Val K) : Val.add v .nan = .nan := by
  cases v <;> rfl

theorem Val.nan_sub (v : Val K) : Val.sub .nan v = .nan := by
  cases v <;> rfl

theorem Val.sub_nan (v : Val K) : Val.sub v .nan = .nan := by
  cases v <;> rfl

/-- The two assignments of lines 161-162 on actions that are numbers: the second one uses the rotated
`_action_x`. -/
theorem rotateActions_values (libm : Libm K) (psi ax ay : K) (s : Navigator K)
    (hx : s.action_x = .fin ax) (hy : s.action_y = .fin ay) :
    (rotateActions libm psi s).action_x = .fin (ax * libm.cos psi + ay * libm.sin psi) ∧
    (rotateActions libm psi s).action_y
      = .fin (ay * libm.cos psi - (ax * libm.cos psi + ay * libm.sin psi) * libm.sin psi) := by
  simp [rotateActions, hx, hy, Val.add, Val.sub, Val.mul]

theorem fdiv_isFin (a b : K) (hb : b ≠ 0) : (fdiv a b).isFin = true := by
  simp [fdiv, hb, Val.isFin]

/-- The quotient by zero: NaN for a zero numerator, `±inf` with the sign of a nonzero one. -/
theorem fdiv_zero (a : K) :
    (a = 0 → fdiv a 0 = .nan) ∧ (0 < a → fdiv a 0 = .pinf) ∧ (a < 0 → fdiv a 0 = .ninf) := by
  refine ⟨fun h => ?_, fun h => ?_, fun h => ?_⟩
  · simp [fdiv, h]
  · simp [fdiv, h]
  · simp [fdiv, h, not_lt_of_gt h]

/-- Clamping `±inf` gives `±max_action`; clamping NaN gives NaN. -/
theorem clampVal_special (m : K) :
    clampVal .pinf m = .fin m ∧ clampVal .ninf m = .fin (-m) ∧ clampVal .nan m = .nan := by
  simp [clampVal]

/-- A clamped action is a number within the bound unless the action is NaN. -/
theorem clampVal_bounded (v : Val K) (m : K) (hm : 0 ≤ m) (hv : v ≠ .nan) :
    ∃ x, clampVal v m = .fin x ∧ |x| ≤ m := by
  cases v with
  | fin a =>
    refine ⟨clamp a m, rfl, ?_⟩
    unfold clamp
    split_ifs with h
    · rw [abs_mul, abs_of_nonneg hm]
      exact mul_le_of_le_one_left hm (abs_sign_le_one a)
    · exact not_lt.mp h
  | pinf => exact ⟨m, (clampVal_special m).1, le_of_eq (abs_of_nonneg hm)⟩
  | ninf => exact ⟨-m, (clampVal_special m).2.1, by rw [abs_neg, abs_of_nonneg hm]⟩
  | nan => exact absurd rfl hv

/-- The clamped position actions of a cycle with elapsed time zero: `±max` with the sign of a
nonzero derivative numerator. -/
theorem clampActions_zero_dt (s : Navigator K) (ev : PoseEvent K) (h0 : ev.now - s.dt = 0) :
    ((0 < s.x_kd * (s.current_goal.translation.x - ev.msg.position.x - s.prev_error_x) →
        (clampActions (positionPid ev.now (storePose s ev.msg))).action_x
          = .fin s.trans_max_speed) ∧
      (s.x_kd * (s.current_goal.translation.x - ev.msg.position.x - s.prev_error_x) < 0 →
        (clampActions (positionPid ev.now (storePose s ev.msg))).action_x
          = .fin (-s.trans_max_speed))) ∧
    ((0 < s.y_kd * (s.current_goal.translation.y - ev.msg.position.y - s.prev_error_y) →
        (clampActions (positionPid ev.now (storePose s ev.msg))).action_y
          = .fin s.trans_max_speed) ∧
      (s.y_kd * (s.current_goal.translation.y - ev.msg.position.y - s.prev_error_y) < 0 →
        (clampActions (positionPid ev.now (storePose s ev.msg))).action_y
          = .fin (-s.trans_max_speed))) ∧
    ((0 < s.z_kd * (s.current_goal.translation.z - ev.msg.position.z - s.prev_error_z) →
        (clampActions (positionPid ev.now (storePose s ev.msg))).action_z
          = .fin s.trans_max_speed) ∧
      (s.z_kd * (s.current_goal.translation.z - ev.msg.position.z - s.prev_error_z) < 0 →
        (clampActions (positionPid ev.now (storePose s ev.msg))).action_z
          = .fin (-s.trans_max_speed))) := by
  refine ⟨⟨?_, ?_⟩, ⟨?_, ?_⟩, ⟨?_, ?_⟩⟩ <;> intro hnum <;>
    simp [clampActions, positionPid, storePose, fdiv, h0, hnum, not_lt_of_gt hnum, Val.add,
      clampVal]

/-- The elapsed time a cycle uses and the twist it has built at line 177. -/
theorem beforeArrival_twist (libm : Libm K) (s : Navigator K) (ev : PoseEvent K) :
    (beforeArrival libm s ev).dt = ev.now - s.dt ∧
    (ev.now - s.dt ≠ 0 → (beforeArrival libm s ev).twist.defined = true) ∧
    (ev.now - s.dt = 0 →
      s.x_kd * (s.current_goal.translation.x - ev.msg.position.x - s.prev_error_x) = 0 →
      (beforeArrival libm s ev).twist.linear.x = .nan) := by
  refine ⟨?_, fun h => ?_, fun h hn => ?_⟩
  · simp only [beforeArrival, storePose, positionPid, clampActions, rotateActions, fillTwist]
  · simp [beforeArrival, storePose, positionPid, clampActions, rotateActions, fillTwist,
      Twist.defined, clampVal, fdiv, h, Val.add, Val.sub, Val.mul, Val.isFin]
  · simp [beforeArrival, storePose, positionPid, clampActions, rotateActions, fillTwist,
      clampVal, fdiv, h, hn, Val.add, Val.mul, Val.nan_add]

/-- The yaw derivative gain and the previous yaw error at line 177 are those of the state the
cycle starts from. -/
theorem beforeArrival_yaw (libm : Libm K) (s : Navigator K) (ev : PoseEvent K) :
    (beforeArrival libm s ev).yaw_kd = s.yaw_kd ∧
      (beforeArrival libm s ev).prev_error_yaw = s.prev_error_yaw := by
  simp only [beforeArrival, storePose, positionPid, clampActions, rotateActions, fillTwist,
    and_self]

/-- The twist `controlYaw` leaves: untouched when aligned, the yaw command otherwise. -/
theorem controlYaw_twist (gy py dt : K) (t : Navigator K) :
    ((controlYaw gy py dt t).1 = true → (controlYaw gy py dt t).2.twist = t.twist) ∧
    ((controlYaw gy py dt t).1 = false →
      (dt ≠ 0 → (controlYaw gy py dt t).2.twist.defined = true) ∧
      (dt = 0 → t.yaw_kd * (gy - py - t.prev_error_yaw) = 0 →
        (controlYaw gy py dt t).2.twist.angular.z = .nan)) := by
  unfold controlYaw
  simp only [yawError]
  split_ifs with h
  · exact ⟨fun _ => rfl, fun h' => by cases h'⟩
  · refine ⟨fun h' => (by cases h'), fun _ => ⟨fun hd => ?_, fun hd hn => ?_⟩⟩
    · simp [yawTwist, yawPid, Twist.defined, clampVal, fdiv, hd, Val.add, Val.isFin]
    · simp [yawTwist, yawPid, clampVal, fdiv, hd, hn, Val.add]

theorem publishVelocity_vel (ps : ParamServer K) (stamp : K) (g : Option Bool) (t : Navigator K) :
    (publishVelocity ps stamp g t).2.vel = some t.twist := by
  unfold publishVelocity finalCheck
  split_ifs <;> rfl

/-- The velocity command a cycle publishes is the twist built before the arrival test or the
yaw command of `controlYaw`. -/
theorem arrival_vel (ps : ParamServer K) (stamp gy py : K) (t t' : Navigator K) (o : Output K)
    (tw : Twist K) (hr : arrival ps stamp gy py t = .ok (t', o)) (hv : o.vel = some tw) :
    tw = t.twist ∨
      ((controlYaw gy py t.dt t).1 = false ∧ tw = (controlYaw gy py t.dt t).2.twist) := by
  have hy := controlYaw_twist gy py t.dt t
  unfold arrival at hr
  dsimp only at hr
  split_ifs at hr with h1 h2 h3 h4
  · simp only [Except.ok.injEq] at hr
    have hp := publishVelocity_vel ps stamp (some true) (enterHovering (controlYaw gy py t.dt t).2)
    rw [hr] at hp
    left
    have : some tw = some (enterHovering (controlYaw gy py t.dt t).2).twist := hv.symm.trans hp
    rw [Option.some.injEq] at this
    rw [this]
    exact hy.1 h2
  · simp only [Except.ok.injEq, Prod.mk.injEq] at hr
    obtain ⟨-, rfl⟩ := hr
    cases hv
  · cases hn : nextWaypoint (controlYaw gy py t.dt t).2 with
    | error e => rw [hn] at hr; cases hr
    | ok u =>
      rw [hn] at hr
      simp only [Except.map, Except.ok.injEq, Prod.mk.injEq] at hr
      obtain ⟨-, rfl⟩ := hr
      cases hv
  · simp only [Except.ok.injEq] at hr
    have hp := publishVelocity_vel ps stamp none (controlYaw gy py t.dt t).2
    rw [hr] at hp
    right
    have : some tw = some (controlYaw gy py t.dt t).2.twist := hv.symm.trans hp
    rw [Option.some.injEq] at this
    exact ⟨by simpa using h2, this⟩
  · simp only [Except.ok.injEq] at hr
    have hp := publishVelocity_vel ps stamp none t
    rw [hr] at hp
    left
    have : some tw = some t.twist := hv.symm.trans hp
    rwa [Option.some.injEq] at this

theorem Inv.count {ps : ParamServer K} {ws : List (Transform K)} {s : Navigator K}
    (h : Inv ps ws s) :
    (s.waypoints.length : Int) + s.waypoint_number = ws.length ∧
      (s.waypoint_number = s.number_of_waypoints ↔ s.waypoints = []) := by
  obtain ⟨b1, b2, b3, b4, -⟩ := h
  have hl : s.waypoints.length = ws.length - s.waypoint_number.toNat := by
    rw [b4, List.length_drop]
  constructor
  · omega
  · rw [← List.length_eq_zero, b1]
    omega

/-- The arrival test and what follows it leave the position PID memory alone. -/
theorem arrival_keeps_pid (ps : ParamServer K) (stamp gy py : K) (t t' : Navigator K)
    (o : Output K) (hr : arrival ps stamp gy py t = .ok (t', o)) :
    t'.integral_x = t.integral_x ∧ t'.integral_y = t.integral_y ∧
    t'.integral_z = t.integral_z ∧ t'.prev_error_x = t.prev_error_x ∧
    t'.prev_error_y = t.prev_error_y ∧ t'.prev_error_z = t.prev_error_z ∧ t'.dt = t.dt := by
  have hy : (controlYaw gy py t.dt t).2.integral_x = t.integral_x ∧
      (controlYaw gy py t.dt t).2.integral_y = t.integral_y ∧
      (controlYaw gy py t.dt t).2.integral_z = t.integral_z ∧
      (controlYaw gy py t.dt t).2.prev_error_x = t.prev_error_x ∧
      (controlYaw gy py t.dt t).2.prev_error_y = t.prev_error_y ∧
      (controlYaw gy py t.dt t).2.prev_error_z = t.prev_error_z ∧
      (controlYaw gy py t.dt t).2.dt = t.dt := by
    unfold controlYaw
    simp only [yawError]
    split_ifs <;> simp only [yawTwist, yawPid, and_self]
  have hp : ∀ (g : Option Bool) (u : Navigator K),
      (publishVelocity ps stamp g u).1.integral_x = u.integral_x ∧
      (publishVelocity ps stamp g u).1.integral_y = u.integral_y ∧
      (publishVelocity ps stamp g u).1.integral_z = u.integral_z ∧
      (publishVelocity ps stamp g u).1.prev_error_x = u.prev_error_x ∧
      (publishVelocity ps stamp g u).1.prev_error_y = u.prev_error_y ∧
      (publishVelocity ps stamp g u).1.prev_error_z = u.prev_error_z ∧
      (publishVelocity ps stamp g u).1.dt = u.dt := by
    intro g u
    unfold publishVelocity finalCheck
    split_ifs <;> simp only [and_self]
  unfold arrival at hr
  dsimp only at hr
  split_ifs at hr with h1 h2 h3 h4
  · simp only [Except.ok.injEq] at hr
    have := hp (some true) (enterHovering (controlYaw gy py t.dt t).2)
    rw [hr] at this
    obtain ⟨a1, a2, a3, a4, a5, a6, a7⟩ := this
    obtain ⟨b1, b2, b3, b4, b5, b6, b7⟩ := hy
    exact ⟨a1.trans b1, a2.trans b2, a3.trans b3, a4.trans b4, a5.trans b5, a6.trans b6,
      a7.trans b7⟩
  · simp only [Except.ok.injEq, Prod.mk.injEq] at hr
    obtain ⟨rfl, -⟩ := hr
    exact hy
  · cases hn : nextWaypoint (controlYaw gy py t.dt t).2 with
    | error e => rw [hn] at hr; cases hr
    | ok u =>
      rw [hn] at hr
      simp only [Except.map, Except.ok.injEq, Prod.mk.injEq] at hr
      obtain ⟨rfl, -⟩ := hr
      unfold nextWaypoint at hn
      split at hn
      · cases hn
      · cases hn
        exact hy
  · simp only [Except.ok.injEq] at hr
    have := hp none (controlYaw gy py t.dt t).2
    rw [hr] at this
    obtain ⟨a1, a2, a3, a4, a5, a6, a7⟩ := this
    obtain ⟨b1, b2, b3, b4, b5, b6, b7⟩ := hy
    exact ⟨a1.trans b1, a2.trans b2, a3.trans b3, a4.trans b4, a5.trans b5, a6.trans b6,
      a7.trans b7⟩
  · simp only [Except.ok.injEq] at hr
    have := hp none t
    rwa [hr] at this

/-- The position PID memory at line 177, in terms of the state the cycle starts from. -/
theorem beforeArrival_pid (libm : Libm K) (s : Navigator K) (ev : PoseEvent K) :
    (beforeArrival libm s ev).integral_x = s.x_ki * (s.integral_x
      + (s.current_goal.translation.x - ev.msg.position.x) * (ev.now - s.dt)) ∧
    (beforeArrival libm s ev).integral_y = s.y_ki * (s.integral_y
      + (s.current_goal.translation.y - ev.msg.position.y) * (ev.now - s.dt)) ∧
    (beforeArrival libm s ev).integral_z = s.z_ki * (s.integral_z
      + (s.current_goal.translation.z - ev.msg.position.z) * (ev.now - s.dt)) ∧
    (beforeArrival libm s ev).prev_error_x = s.current_goal.translation.x - ev.msg.position.x ∧
    (beforeArrival libm s ev).prev_error_y = s.current_goal.translation.y - ev.msg.position.y ∧
    (beforeArrival libm s ev).prev_error_z
      = s.current_goal.translation.z - ev.msg.position.z := by
  simp only [beforeArrival, storePose, positionPid, clampActions, rotateActions, fillTwist,
    and_self]

/-- What a cycle whose position error exceeds the tolerance publishes: the twist built before
the arrival test, and nothing on `/goal_reached`. -/
theorem poseCallback_away_out (ps : ParamServer K) (libm : Libm K) (s : Navigator K)
    (ev : PoseEvent K) (hg : (!s.waypoints_received && !s.hovering) = false)
    (hx : ¬ |s.current_goal.translation.x - ev.msg.position.x| ≤ s.tolerance) :
    ∃ s' stw, poseCallback ps libm s ev
      = .ok (s', ⟨some (beforeArrival libm s ev).twist, stw, none⟩) := by
  rw [poseCallback_away ps libm s ev hg hx]
  have h1 := publishVelocity_vel ps ev.stamp none (beforeArrival libm s ev)
  have h2 := (publishVelocity_out ps ev.stamp none (beforeArrival libm s ev)).1
  generalize publishVelocity ps ev.stamp none (beforeArrival libm s ev) = p at h1 h2
  obtain ⟨a, ⟨v, sv, g⟩⟩ := p
  simp only at h1 h2
  subst h1 h2
  exact ⟨a, sv, rfl⟩

/-- The x and y components of the twist built before the arrival test are the rotated clamped
actions. -/
theorem beforeArrival_twist_xy (libm : Libm K) (s : Navigator K) (ev : PoseEvent K) :
    (beforeArrival libm s ev).twist.linear.x = (rotateActions libm ev.msg.orientation
      (clampActions (positionPid ev.now (storePose s ev.msg)))).action_x ∧
    (beforeArrival libm s ev).twist.linear.y = (rotateActions libm ev.msg.orientation
      (clampActions (positionPid ev.now (storePose s ev.msg)))).action_y := by
  unfold beforeArrival
  simp only [storePose, fillTwist, and_self]

end Lemmas

/-! ## A sample run

The trajectory `[(1,0,0)]` with pose updates at the origin, at the goal and at the goal again:
the first cycle sets the pending-exit flag and halves the tolerance, the second enters hovering
and publishes on `/goal_reached` (and on `/cmd_vel`), the third publishes nothing. -/

theorem sample_run_outputs :
    ∃ s1, waypointCallback ParamServer.unset fresh [waypointAt 1] = .ok s1 ∧
      (runPoses ParamServer.unset Libm.yawZero s1 [poseAt 1 0, poseAt 2 1, poseAt 3 1]).map
        (fun c => (c.pre.must_exit, c.pre.tolerance, c.out.goal_reached, c.out.vel.isSome,
          c.post.hovering))
        = [(false, 3 / 20, none, true, false), (true, 3 / 40, some true, true, true),
           (true, 3 / 40, none, false, true)] := by
  refine ⟨_, rfl, ?_⟩
  norm_num [runPoses, poseCallback, arrival, beforeArrival, storePose, positionPid, clampActions,
    rotateActions, fillTwist, publishVelocity, finalCheck, withinTolerance, controlYaw,
    yawError, enterHovering, clampVal, clamp, sign, fdiv, param, Navigator.init,
    ParamServer.unset, fresh, waypointAt, poseAt, Libm.yawZero, abs_le, Val.add, Val.sub,
    Val.mul]

theorem hoveringAtOne_inTolerance : inTolerance hoveringAtOne (poseAt 5 1).msg := by
  norm_num [inTolerance, hoveringAtOne, fresh, waypointAt, poseAt]

theorem trackingAtZero_inTolerance : inTolerance trackingAtZero (poseAt 1 0).msg := by
  norm_num [inTolerance, trackingAtZero, fresh, waypointAt, poseAt]

theorem trackingAtZero_away (t : ℚ) :
    ¬ |trackingAtZero.current_goal.translation.x - (poseAt t 5).msg.position.x|
      ≤ trackingAtZero.tolerance := by
  norm_num [trackingAtZero, fresh, waypointAt, poseAt, abs_le]

theorem trackingWithDerivative_away (t : ℚ) :
    ¬ |trackingWithDerivative.current_goal.translation.x - (poseAt t 5).msg.position.x|
      ≤ trackingWithDerivative.tolerance := by
  norm_num [trackingWithDerivative, trackingAtZero, fresh, waypointAt, poseAt, abs_le]

/-- With a derivative gain of `1`, a cycle with elapsed time zero and a changed error publishes
a command of numbers: the `-inf` of each axis has been clamped to minus the maximum speed. -/
theorem zero_dt_saturated_command :
    ∃ s', poseCallback ParamServer.unset Libm.yawZero trackingWithDerivative
        ⟨0, 0, ⟨⟨5, 5, 5⟩, 0⟩⟩
      = .ok (s', ⟨some ⟨⟨.fin (-2), .fin (-2), .fin (-2)⟩, ⟨.fin 0, .fin 0, .fin 0⟩⟩,
          some ⟨0, ⟨⟨.fin (-2), .fin (-2), .fin (-2)⟩, ⟨.fin 0, .fin 0, .fin 0⟩⟩⟩, none⟩) := by
  norm_num [poseCallback, arrival, beforeArrival, storePose, positionPid, clampActions,
    rotateActions, fillTwist, publishVelocity, finalCheck, withinTolerance, controlYaw,
    clampVal, clamp, sign, fdiv, param, Navigator.init, ParamServer.unset, fresh, waypointAt,
    trackingWithDerivative, trackingAtZero, Libm.yawZero, abs_le, Val.add, Val.sub, Val.mul]

/-! ## The claims -/

section Claims

variable {K : Type} [LinearOrderedField K]

/-- Claim C1, evaluated on the code.  The trajectory `[(0,0,0), (0.1,0,0)]` with default
parameters and two pose updates at the origin: the first update finds the first waypoint reached
and moves on to the second one, leaving the queue empty, the index equal to the count and the
pending-exit flag clear (the cycle returns before the index check of line 211).  The second
update finds the second waypoint reached as well (error `0.1`, tolerance `0.15`) and, the flag
being clear, executes the next-waypoint branch: `front()` on the empty queue. -/
theorem next_waypoint_on_empty_queue :
    ∃ s1 s2, waypointCallback (ParamServer.unset : ParamServer ℝ)
        (Navigator.init ParamServer.unset 0 0 0) [⟨⟨0, 0, 0⟩, 0⟩, ⟨⟨1 / 10, 0, 0⟩, 0⟩] = .ok s1 ∧
      poseCallback ParamServer.unset ⟨Real.cos, Real.sin⟩ s1 ⟨1, 1, ⟨⟨0, 0, 0⟩, 0⟩⟩
        = .ok (s2, ⟨none, none, none⟩) ∧
      s2.waypoints = [] ∧ s2.waypoint_number = s2.number_of_waypoints ∧ s2.must_exit = false ∧
      poseCallback ParamServer.unset ⟨Real.cos, Real.sin⟩ s2 ⟨2, 2, ⟨⟨0, 0, 0⟩, 0⟩⟩
        = .error Fault.emptyQueue := by
  obtain ⟨s1, h1, -, hh, hr, hm, hn, ht, hy, hg, hq⟩ :=
    waypointCallback_inv (ParamServer.unset : ParamServer ℝ)
      (Navigator.init ParamServer.unset 0 0 0) [⟨⟨0, 0, 0⟩, 0⟩, ⟨⟨1 / 10, 0, 0⟩, 0⟩]
      (List.cons_ne_nil _ _)
  have hg' : s1.current_goal = ⟨⟨0, 0, 0⟩, 0⟩ := by simpa using hg.symm
  have hnum : s1.number_of_waypoints = 2 := by
    simp only [waypointCallback, Except.ok.injEq] at h1
    subst h1
    rfl
  obtain ⟨s2, h2, g1, g2, g3, g4, g5, g6, g7, g8, g9⟩ :=
    poseCallback_next ParamServer.unset ⟨Real.cos, Real.sin⟩ s1 ⟨1, 1, ⟨⟨0, 0, 0⟩, 0⟩⟩
      ⟨⟨1 / 10, 0, 0⟩, 0⟩ [] (by simp [hr])
      (by norm_num [inTolerance, hg', ht, hy, param, ParamServer.unset]) hm (by simpa using hq)
  refine ⟨s1, s2, h1, h2, g2, by rw [g3, g4, hn, hnum]; rfl, g5.trans hm, ?_⟩
  exact poseCallback_empty_queue _ _ s2 _ (by simp [g7, hr])
    (by norm_num [inTolerance, g1, g8, g9, ht, hy, param, ParamServer.unset, abs_le])
    (g5.trans hm) g2

/-- Claim C2, evaluated on the code.  End-to-end scenario 1: after the single-waypoint
trajectory `[(0,0,0) yaw 0]` the queue is empty and the pending-exit flag is clear, so the first
pose update at the origin with yaw `0`, whatever the clock reads, takes the next-waypoint branch
and calls `front()` on the empty queue; it neither enters hovering nor publishes. -/
theorem scenario_one_empty_queue (now stamp : ℝ) :
    ∃ s1, waypointCallback (ParamServer.unset : ParamServer ℝ)
        (Navigator.init ParamServer.unset 0 0 0) [⟨⟨0, 0, 0⟩, 0⟩] = .ok s1 ∧
      s1.waypoints = [] ∧ s1.must_exit = false ∧ s1.hovering = false ∧
      poseCallback ParamServer.unset ⟨Real.cos, Real.sin⟩ s1 ⟨now, stamp, ⟨⟨0, 0, 0⟩, 0⟩⟩
        = .error Fault.emptyQueue := by
  obtain ⟨s1, h1, -, hh, hr, hm, -, ht, hy, hg, hq⟩ :=
    waypointCallback_inv (ParamServer.unset : ParamServer ℝ)
      (Navigator.init ParamServer.unset 0 0 0) [⟨⟨0, 0, 0⟩, 0⟩] (List.cons_ne_nil _ _)
  have hg' : s1.current_goal = ⟨⟨0, 0, 0⟩, 0⟩ := by simpa using hg.symm
  have hq' : s1.waypoints = [] := by simpa using hq
  refine ⟨s1, h1, hq', hm, hh, ?_⟩
  exact poseCallback_empty_queue _ _ s1 _ (by simp [hr])
    (by norm_num [inTolerance, hg', ht, hy, param, ParamServer.unset]) hm hq'

/-- Claim C3, evaluated on the code.  Goal `(2,0,0)`, pose at the origin with yaw `π/2`, default
gains: the clamped world-frame pair is `(1, 0)`, for which the contract gives the body-frame
pair `(0, -1)`; the published twist has linear part `(0, 0, 0)`, because line 162 computes the
y component from the x component line 161 has already rotated. -/
theorem rotation_reads_rotated_x :
    ∃ s1, waypointCallback (ParamServer.unset : ParamServer ℝ)
        (Navigator.init ParamServer.unset 0 0 0) [⟨⟨2, 0, 0⟩, Real.pi / 2⟩] = .ok s1 ∧
      (clampActions (positionPid 1 (storePose s1 ⟨⟨0, 0, 0⟩, Real.pi / 2⟩))).action_x = .fin 1 ∧
      (clampActions (positionPid 1 (storePose s1 ⟨⟨0, 0, 0⟩, Real.pi / 2⟩))).action_y = .fin 0 ∧
      ∃ s2, poseCallback ParamServer.unset ⟨Real.cos, Real.sin⟩ s1
          ⟨1, 1, ⟨⟨0, 0, 0⟩, Real.pi / 2⟩⟩
        = .ok (s2, ⟨some ⟨⟨.fin 0, .fin 0, .fin 0⟩, ⟨.fin 0, .fin 0, .fin 0⟩⟩,
                    some ⟨1, ⟨⟨.fin 0, .fin 0, .fin 0⟩, ⟨.fin 0, .fin 0, .fin 0⟩⟩⟩, none⟩) := by
  refine ⟨_, rfl, ?_, ?_, ?_⟩
  · norm_num [storePose, positionPid, clampActions, clampVal, clamp, sign, fdiv, param,
      Navigator.init, ParamServer.unset, Val.add]
  · norm_num [storePose, positionPid, clampActions, clampVal, clamp, sign, fdiv, param,
      Navigator.init, ParamServer.unset, Val.add]
  · norm_num [poseCallback, arrival, beforeArrival, storePose, positionPid, clampActions,
      rotateActions, fillTwist, publishVelocity, finalCheck, withinTolerance, controlYaw,
      clampVal, clamp, sign, fdiv, param, Navigator.init, ParamServer.unset, Val.add, Val.sub,
      Val.mul]

/-- Claim C4 as stated fails.  After the single-waypoint trajectory `[(1,0,0)]` the active goal
is the last waypoint, and the tolerance the first cycle uses is the configured `0.15`, not its
half: a pose at `(0.9,0,0)` passes the test of line 177 with an error of `0.1`, which exceeds
`0.075`. -/
theorem last_waypoint_full_tolerance :
    ∃ s1, waypointCallback ParamServer.unset fresh [waypointAt 1] = .ok s1 ∧
      [waypointAt 1].getLast? = some s1.current_goal ∧
      s1.tolerance = 15 / 100 ∧
      s1.tolerance ≠ param (ParamServer.unset : ParamServer ℚ).tolerance (15 / 100) / 2 ∧
      (∃ r, poseCallback ParamServer.unset Libm.yawZero s1 (poseAt 1 0) = .ok r) ∧
      inTolerance s1 (poseAt 1 (9 / 10)).msg ∧
      ¬ |s1.current_goal.translation.x - (poseAt 1 (9 / 10)).msg.position.x|
          ≤ param (ParamServer.unset : ParamServer ℚ).tolerance (15 / 100) / 2 := by
  obtain ⟨s1, h1, -, hh, hr, hm, -, ht, hy, hg, hq⟩ :=
    waypointCallback_inv ParamServer.unset fresh [waypointAt 1] (List.cons_ne_nil _ _)
  have hg' : s1.current_goal = waypointAt 1 := by simpa using hg.symm
  refine ⟨s1, h1, by simp [hg'], ?_, ?_, ⟨_, poseCallback_away _ _ s1 _ (by simp [hr]) ?_⟩,
    ?_, ?_⟩ <;>
  norm_num [inTolerance, hg', ht, hy, param, ParamServer.unset, waypointAt, poseAt, abs_le]

/-- Claim C4, amended.  In a run of pose updates after `waypointCallback` on a non-empty
trajectory, every cycle that starts with the pending-exit flag set has the last waypoint as
active goal and uses half the configured position tolerance; and the flag and the halved
tolerance are set by every cycle that starts with the index at the waypoint count and publishes
a velocity command (that is, reaches the index check of line 211). -/
theorem pending_exit_half_tolerance (ps : ParamServer K) (libm : Libm K) (s : Navigator K)
    (ws : List (Transform K)) (evs : List (PoseEvent K)) (hws : ws ≠ []) :
    ∃ s1, waypointCallback ps s ws = .ok s1 ∧
      ∀ c ∈ runPoses ps libm s1 evs,
        (c.pre.must_exit = true →
          ws.getLast? = some c.pre.current_goal ∧
            c.pre.tolerance = param ps.tolerance (15 / 100) / 2) ∧
        (c.pre.waypoint_number = ws.length → c.out.vel ≠ none →
          c.post.must_exit = true ∧ c.post.tolerance = param ps.tolerance (15 / 100) / 2) := by
  obtain ⟨s1, h1, hi, -⟩ := waypointCallback_inv ps s ws hws
  refine ⟨s1, h1, fun c hc => ?_⟩
  obtain ⟨hpre, hp⟩ := runPoses_cycle ps libm ws evs s1 hi c hc
  refine ⟨fun hm => ⟨hpre.last hm, hpre.exit_tolerance hm⟩, fun hn hv => ?_⟩
  exact (poseCallback_step ps libm _ _ _ _ hp).2.2.2 hv (hn.trans hpre.total.symm)

theorem pending_exit_half_tolerance_witness :
    ∃ s1, waypointCallback ParamServer.unset fresh [waypointAt 1] = .ok s1 ∧
      ∀ c ∈ runPoses ParamServer.unset Libm.yawZero s1 [poseAt 1 0, poseAt 2 1],
        (c.pre.must_exit = true →
          [waypointAt 1].getLast? = some c.pre.current_goal ∧
            c.pre.tolerance = param (ParamServer.unset : ParamServer ℚ).tolerance (15 / 100) / 2) ∧
        (c.pre.waypoint_number = [waypointAt 1].length → c.out.vel ≠ none →
          c.post.must_exit = true ∧
            c.post.tolerance
              = param (ParamServer.unset : ParamServer ℚ).tolerance (15 / 100) / 2) :=
  pending_exit_half_tolerance ParamServer.unset Libm.yawZero fresh [waypointAt 1]
    [poseAt 1 0, poseAt 2 1] (List.cons_ne_nil _ _)

/-- Claim C6 as stated fails for the maximum `0`: `|1| > 0` and `clamp(1, 0) = 0`, whose sign
is `0` and not the sign `1` of the input. -/
theorem clamp_zero_max_sign :
    |(1 : ℚ)| > 0 ∧ clamp (1 : ℚ) 0 = 0 ∧ sign (clamp (1 : ℚ) 0) ≠ sign 1 := by
  norm_num [clamp, sign]

/-- Claim C6, amended.  For every `v` and `m`, `clamp(v, m)` is `sign(v) * m` when `|v| > m`,
is `v` when `|v| ≤ m`, and `clamp(0, m) = 0`; when `|v| > m` and `m > 0` the result has the
sign of `v`. -/
theorem clamp_cases (v m : K) :
    (|v| > m → clamp v m = sign v * m) ∧ (|v| ≤ m → clamp v m = v) ∧ clamp 0 m = 0 ∧
      (|v| > m → 0 < m → sign (clamp v m) = sign v) := by
  refine ⟨fun h => by simp [clamp, h], fun h => by simp [clamp, not_lt.mpr h], ?_, ?_⟩
  · unfold clamp
    split_ifs <;> simp [sign_zero]
  · intro h hm
    have hv : v ≠ 0 := by
      rintro rfl
      simp at h
      exact absurd hm (not_lt_of_gt h)
    simp only [clamp, h, if_true]
    rcases lt_or_gt_of_ne hv with hneg | hpos
    · rw [sign_neg hneg, sign_neg]; linarith
    · rw [sign_pos hpos, sign_pos]; linarith

theorem clamp_cases_witness :
    clamp (5 : ℚ) 2 = sign 5 * 2 ∧ clamp (1 : ℚ) 2 = 1 ∧ sign (clamp (5 : ℚ) 2) = sign 5 :=
  ⟨(clamp_cases 5 2).1 (by norm_num), (clamp_cases 1 2).2.1 (by norm_num),
    (clamp_cases 5 2).2.2.2 (by norm_num) (by norm_num)⟩

/-- Claim C7 as stated fails for the elapsed time `0`: with the default gains (`ki = kd = 0`)
and a first pose update handled at clock reading `0`, `_dt` is `0`, the derivative term divides
by it and the x action is NaN (`0/0`) rather than `kp * e`. -/
theorem pid_zero_dt_undefined :
    (fresh.x_ki = 0 ∧ fresh.x_kd = 0) ∧ (positionPid 0 fresh).dt = 0 ∧
      (positionPid 0 fresh).action_x = .nan ∧
      (positionPid 0 fresh).action_x
        ≠ .fin (fresh.x_kp * (fresh.current_goal.translation.x - fresh.pose.translation.x)) := by
  simp [positionPid, fresh, Navigator.init, ParamServer.unset, param, fdiv, Val.add]

/-- Claim C7, amended.  For every axis (x, y, z, yaw), every error, every prior PID state and
every elapsed time `dt ≠ 0`: if `ki = 0` and `kd = 0` for the axis, the action before clamping
is exactly `kp * e`, with no dependence on `dt`.  For the position axes the elapsed time is
`now - _dt` (line 127); `controlYaw` receives it as its argument `dt`. -/
theorem pid_proportional_only (s : Navigator K) (now dt : K) (hnow : now - s.dt ≠ 0)
    (hdt : dt ≠ 0) :
    (s.x_ki = 0 → s.x_kd = 0 → (positionPid now s).action_x
        = .fin (s.x_kp * (s.current_goal.translation.x - s.pose.translation.x))) ∧
    (s.y_ki = 0 → s.y_kd = 0 → (positionPid now s).action_y
        = .fin (s.y_kp * (s.current_goal.translation.y - s.pose.translation.y))) ∧
    (s.z_ki = 0 → s.z_kd = 0 → (positionPid now s).action_z
        = .fin (s.z_kp * (s.current_goal.translation.z - s.pose.translation.z))) ∧
    (s.yaw_ki = 0 → s.yaw_kd = 0 → (yawPid dt s).action_yaw = .fin (s.yaw_kp * s.error_yaw)) := by
  refine ⟨?_, ?_, ?_, ?_⟩ <;> intro hi hd <;>
    simp [positionPid, yawPid, hi, hd, fdiv_zero_left, hnow, hdt, Val.add]

theorem pid_proportional_only_witness :
    (positionPid 3 fresh).action_x
        = .fin (fresh.x_kp * (fresh.current_goal.translation.x - fresh.pose.translation.x)) ∧
    (yawPid 3 fresh).action_yaw = .fin (fresh.yaw_kp * fresh.error_yaw) :=
  ⟨(pid_proportional_only fresh 3 3 (by norm_num [fresh, Navigator.init])
      (by norm_num)).1 rfl rfl,
   (pid_proportional_only fresh 3 3 (by norm_num [fresh, Navigator.init])
      (by norm_num)).2.2.2 rfl rfl⟩

/-- Claim C8.  For every non-empty waypoint list `ws` and every prior state (whatever its
queue holds), `waypointCallback` makes `ws[0]` the active goal and leaves exactly `ws[1..]` in
the queue, `len(ws) - 1` entries; and when `ws` has a second entry, the advance `poseCallback`
performs on a cycle that finds the goal reached makes `ws[1]` the active goal and leaves
`ws[2..]`, `len(ws) - 2` entries. -/
theorem waypoint_queue_replace (ps : ParamServer K) (libm : Libm K) (s : Navigator K)
    (ws : List (Transform K)) (hws : ws ≠ []) :
    ∃ s1, waypointCallback ps s ws = .ok s1 ∧ ws[0]? = some s1.current_goal ∧
      s1.waypoints = ws.drop 1 ∧ s1.waypoints.length = ws.length - 1 ∧
      ∀ ev, 2 ≤ ws.length → inTolerance s1 ev.msg →
        ∃ s2, poseCallback ps libm s1 ev = .ok (s2, ⟨none, none, none⟩) ∧
          ws[1]? = some s2.current_goal ∧ s2.waypoints = ws.drop 2 ∧
          s2.waypoints.length = ws.length - 2 := by
  obtain ⟨s1, h1, -, hh, hr, hm, -, -, -, hg, hq⟩ := waypointCallback_inv ps s ws hws
  refine ⟨s1, h1, hg, hq, by simp [hq], fun ev h2 ht => ?_⟩
  match ws, h2, hq with
  | w0 :: w1 :: rest, _, hq =>
    obtain ⟨u, hu, g1, g2, -⟩ :=
      poseCallback_next ps libm s1 ev w1 rest (by simp [hr]) ht hm (by simpa using hq)
    exact ⟨u, hu, by simp [g1], by simpa using g2, by simp [g2]⟩

theorem waypoint_queue_replace_witness :
    ∃ s1, waypointCallback ParamServer.unset fresh [waypointAt 0, waypointAt 1, waypointAt 2]
        = .ok s1 ∧
      [waypointAt 0, waypointAt 1, waypointAt 2][0]? = some s1.current_goal ∧
      s1.waypoints = [waypointAt 0, waypointAt 1, waypointAt 2].drop 1 ∧
      s1.waypoints.length = [waypointAt 0, waypointAt 1, waypointAt 2].length - 1 ∧
      ∃ s2, poseCallback ParamServer.unset Libm.yawZero s1 (poseAt 1 0)
          = .ok (s2, ⟨none, none, none⟩) ∧
        [waypointAt 0, waypointAt 1, waypointAt 2][1]? = some s2.current_goal ∧
        s2.waypoints = [waypointAt 0, waypointAt 1, waypointAt 2].drop 2 ∧
        s2.waypoints.length = [waypointAt 0, waypointAt 1, waypointAt 2].length - 2 :=
  (waypoint_queue_replace ParamServer.unset Libm.yawZero fresh
    [waypointAt 0, waypointAt 1, waypointAt 2] (List.cons_ne_nil _ _)).imp
    fun s1 h => ⟨h.1, h.2.1, h.2.2.1, h.2.2.2.1, h.2.2.2.2 (poseAt 1 0) (by decide) (by
      have h1 := h.1
      simp only [waypointCallback, Except.ok.injEq] at h1
      subst h1
      norm_num [inTolerance, waypointAt, poseAt, param, ParamServer.unset])⟩

/-- Claim C9.  In every state that is hovering on the final goal (hovering flag and
pending-exit flag set), a pose update whose position errors are within the current tolerance and
whose yaw error is within the yaw tolerance publishes nothing, neither `/goal_reached` nor a
velocity command, and leaves the flags, the goal, the queue and the tolerances as they are.
(The callbacks only set the hovering flag with the pending-exit flag set, `Inv.hovering_exit`.) -/
theorem hovering_arrival_idempotent (ps : ParamServer K) (libm : Libm K) (s : Navigator K)
    (ev : PoseEvent K) (hh : s.hovering = true) (hm : s.must_exit = true)
    (ht : inTolerance s ev.msg) :
    ∃ s', poseCallback ps libm s ev = .ok (s', ⟨none, none, none⟩) ∧
      s'.hovering = true ∧ s'.waypoints_received = s.waypoints_received ∧
      s'.must_exit = true ∧ s'.current_goal = s.current_goal ∧ s'.waypoints = s.waypoints ∧
      s'.waypoint_number = s.waypoint_number ∧ s'.tolerance = s.tolerance ∧
      s'.yaw_tolerance = s.yaw_tolerance := by
  obtain ⟨t, hc, hp⟩ := poseCallback_arrived ps libm s ev (by simp [hh]) ht
  refine ⟨t, ?_, hc.hovering.trans hh, hc.waypoints_received, hc.must_exit.trans hm,
    hc.current_goal, hc.waypoints, hc.waypoint_number, hc.tolerance, hc.yaw_tolerance⟩
  rw [hp, hm, hh]
  rfl

theorem hovering_arrival_idempotent_witness :
    ∃ s', poseCallback ParamServer.unset Libm.yawZero hoveringAtOne (poseAt 5 1)
        = .ok (s', ⟨none, none, none⟩) ∧
      s'.hovering = true ∧ s'.waypoints_received = hoveringAtOne.waypoints_received ∧
      s'.must_exit = true ∧ s'.current_goal = hoveringAtOne.current_goal ∧
      s'.waypoints = hoveringAtOne.waypoints ∧
      s'.waypoint_number = hoveringAtOne.waypoint_number ∧
      s'.tolerance = hoveringAtOne.tolerance ∧
      s'.yaw_tolerance = hoveringAtOne.yaw_tolerance :=
  hovering_arrival_idempotent ParamServer.unset Libm.yawZero hoveringAtOne (poseAt 5 1) rfl rfl
    hoveringAtOne_inTolerance

/-- Claim C10.  For every non-empty trajectory and every sequence of pose updates handled
after its `waypointCallback`, `/goal_reached` is published at most once, and a cycle that
publishes it publishes `true`, has the final waypoint as active goal with position and yaw
errors within tolerance, and is the cycle that enters hovering.  The run is `runPoses`: it ends
with the sequence or at the first update that calls `front()` on an empty queue. -/
theorem goal_reached_one_shot (ps : ParamServer K) (libm : Libm K) (s : Navigator K)
    (ws : List (Transform K)) (evs : List (PoseEvent K)) (hws : ws ≠ []) :
    ∃ s1, waypointCallback ps s ws = .ok s1 ∧
      ((runPoses ps libm s1 evs).filter fun c => c.out.goal_reached.isSome).length ≤ 1 ∧
      ∀ c ∈ runPoses ps libm s1 evs, c.out.goal_reached ≠ none →
        c.out.goal_reached = some true ∧ ws.getLast? = some c.pre.current_goal ∧
          inTolerance c.pre c.ev.msg ∧ c.pre.hovering = false ∧ c.post.hovering = true := by
  obtain ⟨s1, h1, hi, -⟩ := waypointCallback_inv ps s ws hws
  refine ⟨s1, h1, runPoses_count ps libm evs s1, fun c hc hne => ?_⟩
  obtain ⟨hpre, hp⟩ := runPoses_cycle ps libm ws evs s1 hi c hc
  obtain ⟨b1, b2, b3, b4, b5⟩ := (poseCallback_step ps libm _ _ _ _ hp).2.2.1 hne
  exact ⟨b1, hpre.last b2, b5, b3, b4⟩

theorem goal_reached_one_shot_witness :
    ∃ s1, waypointCallback ParamServer.unset fresh [waypointAt 1] = .ok s1 ∧
      ((runPoses ParamServer.unset Libm.yawZero s1 [poseAt 1 0, poseAt 2 1]).filter
        fun c => c.out.goal_reached.isSome).length ≤ 1 ∧
      ∀ c ∈ runPoses ParamServer.unset Libm.yawZero s1 [poseAt 1 0, poseAt 2 1],
        c.out.goal_reached ≠ none →
        c.out.goal_reached = some true ∧ [waypointAt 1].getLast? = some c.pre.current_goal ∧
          inTolerance c.pre c.ev.msg ∧ c.pre.hovering = false ∧ c.post.hovering = true :=
  goal_reached_one_shot ParamServer.unset Libm.yawZero fresh [waypointAt 1]
    [poseAt 1 0, poseAt 2 1] (List.cons_ne_nil _ _)

/-- Claim C11.  A pose update received while no trajectory has been received and the navigator
is not hovering is dropped: `poseCallback` publishes neither a velocity command nor on
`/goal_reached`, and returns the navigator state it was given, every field unchanged. -/
theorem awaiting_trajectory_drops_pose (ps : ParamServer K) (libm : Libm K) (s : Navigator K)
    (ev : PoseEvent K) (hr : s.waypoints_received = false) (hh : s.hovering = false) :
    poseCallback ps libm s ev = .ok (s, ⟨none, none, none⟩) := by
  unfold poseCallback
  simp [hr, hh]

theorem awaiting_trajectory_drops_pose_witness :
    poseCallback ParamServer.unset Libm.yawZero fresh (poseAt 1 0)
      = .ok (fresh, ⟨none, none, none⟩) :=
  awaiting_trajectory_drops_pose ParamServer.unset Libm.yawZero fresh (poseAt 1 0) rfl rfl

/-- Claim C12, evaluated on the code.  Line 127 subtracts the previous *elapsed time* from the
clock, not the previous clock reading: after a trajectory `[(10,0,0)]`, pose updates handled at
clock readings `1`, `2`, `3` use `_dt = 1`, `1`, `2`; on the third cycle the elapsed time since
the previous cycle is `1`, the `_dt` used is `3 - (2 - 1) = 2`. -/
theorem elapsed_time_third_cycle :
    ∃ s1, waypointCallback ParamServer.unset fresh [waypointAt 10] = .ok s1 ∧
      (runPoses ParamServer.unset Libm.yawZero s1 [poseAt 1 0, poseAt 2 0, poseAt 3 0]).map
        (fun c => (c.ev.now, c.post.dt)) = [(1, 1), (2, 1), (3, 2)] := by
  refine ⟨_, rfl, ?_⟩
  norm_num [runPoses, poseCallback, arrival, beforeArrival, storePose, positionPid, clampActions,
    rotateActions, fillTwist, publishVelocity, finalCheck, withinTolerance, controlYaw,
    yawError, enterHovering, clampVal, clamp, sign, fdiv, param, Navigator.init,
    ParamServer.unset, fresh, waypointAt, poseAt, Libm.yawZero, abs_le, Val.add, Val.sub,
    Val.mul]

/-- Claim C13 as stated fails.  Two pose updates handled at the same clock reading `5` (after
the trajectory `[(1,0,0)]`, default gains): the second cycle has `_dt = 5 - 5 = 0`, nothing
detects it, the derivative term is `0/0` and the velocity command is published with a NaN linear
x component. -/
theorem same_clock_reading_undefined_command :
    ∃ s1, waypointCallback ParamServer.unset fresh [waypointAt 1] = .ok s1 ∧
      (runPoses ParamServer.unset Libm.yawZero s1 [poseAt 5 0, poseAt 5 0]).map
        (fun c => (c.post.dt, c.out.vel.map fun tw => tw.linear.x))
        = [(5, some (.fin (1 / 2))), (0, some .nan)] := by
  refine ⟨_, rfl, ?_⟩
  norm_num [runPoses, poseCallback, arrival, beforeArrival, storePose, positionPid, clampActions,
    rotateActions, fillTwist, publishVelocity, finalCheck, withinTolerance, controlYaw,
    yawError, enterHovering, clampVal, clamp, sign, fdiv, param, Navigator.init,
    ParamServer.unset, fresh, waypointAt, poseAt, Libm.yawZero, abs_le, Val.add, Val.sub,
    Val.mul]

/-- Claim C13, amended.  The PID computations apply no guard on the elapsed time `now - _dt`.
On a cycle where it is nonzero (negative included) every component of a published velocity
command is a number.  On a cycle where it is zero the derivative terms are divided by zero:
when the derivative numerators `kd * (e - previous error)` of the x and yaw axes are zero (as
they always are with the default `kd = 0`), every velocity command published on the cycle has a
NaN component, the linear x of the translational command or the angular z of the yaw command;
and a position axis whose numerator is not zero gets `±inf`, which `clamp` turns into plus or
minus the maximum translational speed. -/
theorem dt_zero_not_guarded (ps : ParamServer K) (libm : Libm K) (s s' : Navigator K)
    (ev : PoseEvent K) (o : Output K) (tw : Twist K)
    (hr : poseCallback ps libm s ev = .ok (s', o)) (hv : o.vel = some tw) :
    (ev.now - s.dt ≠ 0 → tw.defined = true) ∧
    (ev.now - s.dt = 0 →
      s.x_kd * (s.current_goal.translation.x - ev.msg.position.x - s.prev_error_x) = 0 →
      s.yaw_kd * (s.current_goal.rotation - ev.msg.orientation - s.prev_error_yaw) = 0 →
      tw.linear.x = .nan ∨ tw.angular.z = .nan) ∧
    (ev.now - s.dt = 0 →
      ((0 < s.x_kd * (s.current_goal.translation.x - ev.msg.position.x - s.prev_error_x) →
          (clampActions (positionPid ev.now (storePose s ev.msg))).action_x
            = .fin s.trans_max_speed) ∧
        (s.x_kd * (s.current_goal.translation.x - ev.msg.position.x - s.prev_error_x) < 0 →
          (clampActions (positionPid ev.now (storePose s ev.msg))).action_x
            = .fin (-s.trans_max_speed))) ∧
      ((0 < s.y_kd * (s.current_goal.translation.y - ev.msg.position.y - s.prev_error_y) →
          (clampActions (positionPid ev.now (storePose s ev.msg))).action_y
            = .fin s.trans_max_speed) ∧
        (s.y_kd * (s.current_goal.translation.y - ev.msg.position.y - s.prev_error_y) < 0 →
          (clampActions (positionPid ev.now (storePose s ev.msg))).action_y
            = .fin (-s.trans_max_speed))) ∧
      ((0 < s.z_kd * (s.current_goal.translation.z - ev.msg.position.z - s.prev_error_z) →
          (clampActions (positionPid ev.now (storePose s ev.msg))).action_z
            = .fin s.trans_max_speed) ∧
        (s.z_kd * (s.current_goal.translation.z - ev.msg.position.z - s.prev_error_z) < 0 →
          (clampActions (positionPid ev.now (storePose s ev.msg))).action_z
            = .fin (-s.trans_max_speed)))) := by
  refine ⟨?_, ?_, clampActions_zero_dt s ev⟩
  all_goals
    unfold poseCallback at hr
    split_ifs at hr with hg
    · simp only [Except.ok.injEq, Prod.mk.injEq] at hr
      obtain ⟨-, rfl⟩ := hr
      cases hv
  · obtain ⟨hdt, hd, -⟩ := beforeArrival_twist libm s ev
    have hy := controlYaw_twist s.current_goal.rotation ev.msg.orientation
      (beforeArrival libm s ev).dt (beforeArrival libm s ev)
    rcases arrival_vel ps ev.stamp _ _ _ s' o tw hr hv with h | ⟨hf, h⟩
    · rw [h]
      exact hd
    · rw [h]
      rw [hdt] at hy
      exact fun hne => (hy.2 hf).1 hne
  · obtain ⟨hdt, -, hz⟩ := beforeArrival_twist libm s ev
    obtain ⟨hk, hp⟩ := beforeArrival_yaw libm s ev
    have hy := controlYaw_twist s.current_goal.rotation ev.msg.orientation
      (beforeArrival libm s ev).dt (beforeArrival libm s ev)
    intro h0 hnx hnyaw
    rcases arrival_vel ps ev.stamp _ _ _ s' o tw hr hv with h | ⟨hf, h⟩
    · rw [h]
      exact Or.inl (hz h0 hnx)
    · rw [h]
      rw [hdt, hk, hp] at hy
      exact Or.inr ((hy.2 hf).2 h0 hnyaw)

theorem dt_zero_not_guarded_witness :
    (beforeArrival Libm.yawZero trackingAtZero (poseAt 1 5)).twist.defined = true ∧
    ((beforeArrival Libm.yawZero trackingAtZero (poseAt 0 5)).twist.linear.x = .nan ∨
      (beforeArrival Libm.yawZero trackingAtZero (poseAt 0 5)).twist.angular.z = .nan) ∧
    (clampActions (positionPid (poseAt 0 5).now
        (storePose trackingWithDerivative (poseAt 0 5).msg))).action_x
      = .fin (-trackingWithDerivative.trans_max_speed) :=
  ⟨(dt_zero_not_guarded ParamServer.unset Libm.yawZero trackingAtZero
      (publishVelocity ParamServer.unset (poseAt 1 5).stamp none
        (beforeArrival Libm.yawZero trackingAtZero (poseAt 1 5))).1 (poseAt 1 5)
      (publishVelocity ParamServer.unset (poseAt 1 5).stamp none
        (beforeArrival Libm.yawZero trackingAtZero (poseAt 1 5))).2
      (beforeArrival Libm.yawZero trackingAtZero (poseAt 1 5)).twist
      (poseCallback_away ParamServer.unset Libm.yawZero trackingAtZero (poseAt 1 5) rfl
        (trackingAtZero_away 1))
      (publishVelocity_vel ParamServer.unset (poseAt 1 5).stamp none
        (beforeArrival Libm.yawZero trackingAtZero (poseAt 1 5)))).1
      (by norm_num [trackingAtZero, fresh, Navigator.init, poseAt]),
   (dt_zero_not_guarded ParamServer.unset Libm.yawZero trackingAtZero
      (publishVelocity ParamServer.unset (poseAt 0 5).stamp none
        (beforeArrival Libm.yawZero trackingAtZero (poseAt 0 5))).1 (poseAt 0 5)
      (publishVelocity ParamServer.unset (poseAt 0 5).stamp none
        (beforeArrival Libm.yawZero trackingAtZero (poseAt 0 5))).2
      (beforeArrival Libm.yawZero trackingAtZero (poseAt 0 5)).twist
      (poseCallback_away ParamServer.unset Libm.yawZero trackingAtZero (poseAt 0 5) rfl
        (trackingAtZero_away 0))
      (publishVelocity_vel ParamServer.unset (poseAt 0 5).stamp none
        (beforeArrival Libm.yawZero trackingAtZero (poseAt 0 5)))).2.1
      (by norm_num [trackingAtZero, fresh, Navigator.init, poseAt])
      (by norm_num [trackingAtZero, fresh, Navigator.init, param, ParamServer.unset])
      (by norm_num [trackingAtZero, fresh, Navigator.init, param, ParamServer.unset]),
   ((dt_zero_not_guarded ParamServer.unset Libm.yawZero trackingWithDerivative
      (publishVelocity ParamServer.unset (poseAt 0 5).stamp none
        (beforeArrival Libm.yawZero trackingWithDerivative (poseAt 0 5))).1 (poseAt 0 5)
      (publishVelocity ParamServer.unset (poseAt 0 5).stamp none
        (beforeArrival Libm.yawZero trackingWithDerivative (poseAt 0 5))).2
      (beforeArrival Libm.yawZero trackingWithDerivative (poseAt 0 5)).twist
      (poseCallback_away ParamServer.unset Libm.yawZero trackingWithDerivative (poseAt 0 5) rfl
        (trackingWithDerivative_away 0))
      (publishVelocity_vel ParamServer.unset (poseAt 0 5).stamp none
        (beforeArrival Libm.yawZero trackingWithDerivative (poseAt 0 5)))).2.2
      (by norm_num [trackingWithDerivative, trackingAtZero, fresh, Navigator.init, poseAt])).1.2
      (by norm_num [trackingWithDerivative, trackingAtZero, fresh, Navigator.init, poseAt,
        waypointAt])⟩

/-- Claim C14, evaluated on the code.  For an empty waypoint list and any prior state,
`waypointCallback` does not reject the input: after overwriting the counters and emptying the
queue it calls `front()` on the empty queue (line 93), so it does not return with the prior
state. -/
theorem empty_trajectory_not_rejected (ps : ParamServer K) (s : Navigator K) :
    waypointCallback ps s [] = .error Fault.emptyQueue ∧ waypointCallback ps s [] ≠ .ok s := by
  constructor
  · rfl
  · intro h
    cases h

/-- Claim C15.  For every non-empty trajectory and every prior state (awaiting, tracking, or
hovering with a halved tolerance), after `waypointCallback` the trajectory is received, the
navigator is not hovering, the pending-exit flag is clear, the tracked index is `1`, and the
position and yaw tolerances are the configured values read from the parameter server. -/
theorem replace_enters_tracking (ps : ParamServer K) (s : Navigator K)
    (ws : List (Transform K)) (hws : ws ≠ []) :
    ∃ s1, waypointCallback ps s ws = .ok s1 ∧
      s1.waypoints_received = true ∧ s1.hovering = false ∧ s1.must_exit = false ∧
      s1.waypoint_number = 1 ∧ s1.tolerance = param ps.tolerance (15 / 100) ∧
      s1.yaw_tolerance = param ps.yaw_tolerance (5 / 100) := by
  obtain ⟨s1, h1, -, hh, hr, hm, hn, ht, hy, -⟩ := waypointCallback_inv ps s ws hws
  exact ⟨s1, h1, hr, hh, hm, hn, ht, hy⟩

theorem replace_enters_tracking_witness :
    (hoveringAtOne.hovering = true ∧ hoveringAtOne.must_exit = true ∧
      hoveringAtOne.tolerance = 3 / 40) ∧
    ∃ s1, waypointCallback ParamServer.unset hoveringAtOne [waypointAt 2] = .ok s1 ∧
      s1.waypoints_received = true ∧ s1.hovering = false ∧ s1.must_exit = false ∧
      s1.waypoint_number = 1 ∧
      s1.tolerance = param (ParamServer.unset : ParamServer ℚ).tolerance (15 / 100) ∧
      s1.yaw_tolerance = param (ParamServer.unset : ParamServer ℚ).yaw_tolerance (5 / 100) :=
  ⟨⟨rfl, rfl, rfl⟩,
    replace_enters_tracking ParamServer.unset hoveringAtOne [waypointAt 2] (List.cons_ne_nil _ _)⟩

/-- Claim C16.  On a handled cycle with elapsed time `dt = now - _dt ≠ 0`, for each position
axis with error `e`, prior integral `I` and prior error `p`, the action before clamping is
`kp*e + ki*(I + e*dt) + kd*(e - p)/dt`; and whenever the cycle completes, the stored integral is
`ki*(I + e*dt)` and the stored previous error is `e`. -/
theorem pid_recurrence (ps : ParamServer K) (libm : Libm K) (s : Navigator K)
    (ev : PoseEvent K) (hg : s.waypoints_received = true ∨ s.hovering = true)
    (hdt : ev.now - s.dt ≠ 0) :
    ((positionPid ev.now (storePose s ev.msg)).action_x
        = .fin (s.x_kp * (s.current_goal.translation.x - ev.msg.position.x)
          + s.x_ki * (s.integral_x
            + (s.current_goal.translation.x - ev.msg.position.x) * (ev.now - s.dt))
          + s.x_kd * ((s.current_goal.translation.x - ev.msg.position.x) - s.prev_error_x)
            / (ev.now - s.dt)) ∧
      (positionPid ev.now (storePose s ev.msg)).action_y
        = .fin (s.y_kp * (s.current_goal.translation.y - ev.msg.position.y)
          + s.y_ki * (s.integral_y
            + (s.current_goal.translation.y - ev.msg.position.y) * (ev.now - s.dt))
          + s.y_kd * ((s.current_goal.translation.y - ev.msg.position.y) - s.prev_error_y)
            / (ev.now - s.dt)) ∧
      (positionPid ev.now (storePose s ev.msg)).action_z
        = .fin (s.z_kp * (s.current_goal.translation.z - ev.msg.position.z)
          + s.z_ki * (s.integral_z
            + (s.current_goal.translation.z - ev.msg.position.z) * (ev.now - s.dt))
          + s.z_kd * ((s.current_goal.translation.z - ev.msg.position.z) - s.prev_error_z)
            / (ev.now - s.dt))) ∧
    ∀ s' o, poseCallback ps libm s ev = .ok (s', o) →
      s'.integral_x = s.x_ki * (s.integral_x
        + (s.current_goal.translation.x - ev.msg.position.x) * (ev.now - s.dt)) ∧
      s'.integral_y = s.y_ki * (s.integral_y
        + (s.current_goal.translation.y - ev.msg.position.y) * (ev.now - s.dt)) ∧
      s'.integral_z = s.z_ki * (s.integral_z
        + (s.current_goal.translation.z - ev.msg.position.z) * (ev.now - s.dt)) ∧
      s'.prev_error_x = s.current_goal.translation.x - ev.msg.position.x ∧
      s'.prev_error_y = s.current_goal.translation.y - ev.msg.position.y ∧
      s'.prev_error_z = s.current_goal.translation.z - ev.msg.position.z := by
  refine ⟨⟨?_, ?_, ?_⟩, fun s' o hr => ?_⟩
  · simp [positionPid, storePose, fdiv, hdt, Val.add]
  · simp [positionPid, storePose, fdiv, hdt, Val.add]
  · simp [positionPid, storePose, fdiv, hdt, Val.add]
  · have hg' : (!s.waypoints_received && !s.hovering) = false := by
      rcases hg with h | h <;> simp [h]
    unfold poseCallback at hr
    rw [hg'] at hr
    simp only [Bool.false_eq_true, if_false] at hr
    obtain ⟨a1, a2, a3, a4, a5, a6, -⟩ := arrival_keeps_pid ps _ _ _ _ s' o hr
    obtain ⟨b1, b2, b3, b4, b5, b6⟩ := beforeArrival_pid libm s ev
    exact ⟨a1.trans b1, a2.trans b2, a3.trans b3, a4.trans b4, a5.trans b5, a6.trans b6⟩

theorem pid_recurrence_witness :
    (positionPid (poseAt 1 5).now (storePose trackingAtZero (poseAt 1 5).msg)).action_x
      = .fin (trackingAtZero.x_kp
          * (trackingAtZero.current_goal.translation.x - (poseAt 1 5).msg.position.x)
        + trackingAtZero.x_ki * (trackingAtZero.integral_x
          + (trackingAtZero.current_goal.translation.x - (poseAt 1 5).msg.position.x)
            * ((poseAt 1 5).now - trackingAtZero.dt))
        + trackingAtZero.x_kd
          * ((trackingAtZero.current_goal.translation.x - (poseAt 1 5).msg.position.x)
            - trackingAtZero.prev_error_x)
          / ((poseAt 1 5).now - trackingAtZero.dt)) :=
  (pid_recurrence ParamServer.unset Libm.yawZero trackingAtZero (poseAt 1 5) (Or.inl rfl)
    (by norm_num [trackingAtZero, fresh, Navigator.init, poseAt])).1.1

/-- Claim C17.  On a cycle in tracking (trajectory received, not hovering) with position and
yaw errors within tolerance, the pending-exit flag clear and a non-empty queue `w :: rest`,
`poseCallback` makes `w` the active goal, leaves `rest` in the queue, increments the tracked index
by exactly one and publishes neither a velocity command nor on `/goal_reached`. -/
theorem non_final_arrival_step (ps : ParamServer K) (libm : Libm K) (s : Navigator K)
    (ev : PoseEvent K) (w : Transform K) (rest : List (Transform K))
    (hr : s.waypoints_received = true) (hh : s.hovering = false) (ht : inTolerance s ev.msg)
    (hm : s.must_exit = false) (hq : s.waypoints = w :: rest) :
    ∃ s', poseCallback ps libm s ev = .ok (s', ⟨none, none, none⟩) ∧
      s'.current_goal = w ∧ s'.waypoints = rest ∧
      s'.waypoint_number = s.waypoint_number + 1 ∧
      s'.number_of_waypoints = s.number_of_waypoints ∧
      s'.waypoints_received = true ∧ s'.hovering = false ∧ s'.must_exit = false := by
  obtain ⟨u, hu, g1, g2, g3, g4, g5, g6, g7, -⟩ :=
    poseCallback_next ps libm s ev w rest (by simp [hr]) ht hm hq
  exact ⟨u, hu, g1, g2, g3, g4, g7.trans hr, g6.trans hh, g5.trans hm⟩

theorem non_final_arrival_step_witness :
    ∃ s', poseCallback ParamServer.unset Libm.yawZero trackingAtZero (poseAt 1 0)
        = .ok (s', ⟨none, none, none⟩) ∧
      s'.current_goal = waypointAt 1 ∧ s'.waypoints = [] ∧
      s'.waypoint_number = trackingAtZero.waypoint_number + 1 ∧
      s'.number_of_waypoints = trackingAtZero.number_of_waypoints ∧
      s'.waypoints_received = true ∧ s'.hovering = false ∧ s'.must_exit = false :=
  non_final_arrival_step ParamServer.unset Libm.yawZero trackingAtZero (poseAt 1 0)
    (waypointAt 1) [] rfl rfl trackingAtZero_inTolerance rfl rfl

/-- Claim C18.  At yaw `0` the body-frame rotation of lines 161-162 is the identity: for every
action pair of numbers `(ax, ay)` the x and y linear components of the twist built from it are
`(ax, ay)`; in particular, on a cycle whose pose has yaw `0` the twist built before the arrival
test carries the clamped actions. -/
theorem zero_yaw_rotation_identity (s : Navigator ℝ) (ev : PoseEvent ℝ) (ax ay : ℝ) :
    (s.action_x = .fin ax → s.action_y = .fin ay →
      (fillTwist (rotateActions ⟨Real.cos, Real.sin⟩ 0 s)).twist.linear.x = .fin ax ∧
      (fillTwist (rotateActions ⟨Real.cos, Real.sin⟩ 0 s)).twist.linear.y = .fin ay) ∧
    (ev.msg.orientation = 0 →
      (clampActions (positionPid ev.now (storePose s ev.msg))).action_x = .fin ax →
      (clampActions (positionPid ev.now (storePose s ev.msg))).action_y = .fin ay →
      (beforeArrival ⟨Real.cos, Real.sin⟩ s ev).twist.linear.x = .fin ax ∧
      (beforeArrival ⟨Real.cos, Real.sin⟩ s ev).twist.linear.y = .fin ay) := by
  have key : ∀ t : Navigator ℝ, t.action_x = .fin ax → t.action_y = .fin ay →
      (fillTwist (rotateActions ⟨Real.cos, Real.sin⟩ 0 t)).twist.linear.x = .fin ax ∧
      (fillTwist (rotateActions ⟨Real.cos, Real.sin⟩ 0 t)).twist.linear.y = .fin ay := by
    intro t hx hy
    obtain ⟨h1, h2⟩ := rotateActions_values ⟨Real.cos, Real.sin⟩ 0 ax ay t hx hy
    simp only [Real.cos_zero, Real.sin_zero, mul_one, mul_zero, add_zero, sub_zero] at h1 h2
    exact ⟨h1, h2⟩
  refine ⟨key s, fun h0 hx hy => ?_⟩
  have := key _ hx hy
  unfold beforeArrival
  simp only [storePose] at this ⊢
  rw [h0]
  exact this

theorem zero_yaw_rotation_identity_witness :
    (fillTwist (rotateActions ⟨Real.cos, Real.sin⟩ 0
        { Navigator.init (ParamServer.unset : ParamServer ℝ) 0 0 0 with
          action_x := .fin 2, action_y := .fin (-1) })).twist.linear.x = .fin 2 ∧
    (fillTwist (rotateActions ⟨Real.cos, Real.sin⟩ 0
        { Navigator.init (ParamServer.unset : ParamServer ℝ) 0 0 0 with
          action_x := .fin 2, action_y := .fin (-1) })).twist.linear.y = .fin (-1) :=
  (zero_yaw_rotation_identity
    { Navigator.init (ParamServer.unset : ParamServer ℝ) 0 0 0 with
      action_x := .fin 2, action_y := .fin (-1) } ⟨1, 1, ⟨⟨0, 0, 0⟩, 0⟩⟩ 2 (-1)).1 rfl rfl

/-- Claim C19.  After `waypointCallback` on a non-empty trajectory of `n` waypoints, and after
every pose update of a run (which ends before any `front()` on an empty queue), the number of
queued entries plus the tracked index is `n`, the stored count is `n`, and the index equals the
count exactly when the queue is empty. -/
theorem queue_index_bookkeeping (ps : ParamServer K) (libm : Libm K) (s : Navigator K)
    (ws : List (Transform K)) (evs : List (PoseEvent K)) (hws : ws ≠ []) :
    ∃ s1, waypointCallback ps s ws = .ok s1 ∧
      ((s1.waypoints.length : Int) + s1.waypoint_number = ws.length ∧
        (s1.waypoint_number = s1.number_of_waypoints ↔ s1.waypoints = [])) ∧
      ∀ c ∈ runPoses ps libm s1 evs,
        (c.post.waypoints.length : Int) + c.post.waypoint_number = ws.length ∧
          c.post.number_of_waypoints = ws.length ∧
          (c.post.waypoint_number = c.post.number_of_waypoints ↔ c.post.waypoints = []) := by
  obtain ⟨s1, h1, hi, -⟩ := waypointCallback_inv ps s ws hws
  refine ⟨s1, h1, hi.count, fun c hc => ?_⟩
  obtain ⟨hpre, hp⟩ := runPoses_cycle ps libm ws evs s1 hi c hc
  have hpost := (poseCallback_step ps libm _ _ _ _ hp).1 ws hpre
  exact ⟨hpost.count.1, hpost.total, hpost.count.2⟩

theorem queue_index_bookkeeping_witness :
    ∃ s1, waypointCallback ParamServer.unset fresh [waypointAt 0, waypointAt 1] = .ok s1 ∧
      ((s1.waypoints.length : Int) + s1.waypoint_number = [waypointAt 0, waypointAt 1].length ∧
        (s1.waypoint_number = s1.number_of_waypoints ↔ s1.waypoints = [])) ∧
      ∀ c ∈ runPoses ParamServer.unset Libm.yawZero s1 [poseAt 1 0, poseAt 2 0, poseAt 3 1],
        (c.post.waypoints.length : Int) + c.post.waypoint_number
            = [waypointAt 0, waypointAt 1].length ∧
          c.post.number_of_waypoints = [waypointAt 0, waypointAt 1].length ∧
          (c.post.waypoint_number = c.post.number_of_waypoints ↔ c.post.waypoints = []) :=
  queue_index_bookkeeping ParamServer.unset Libm.yawZero fresh [waypointAt 0, waypointAt 1]
    [poseAt 1 0, poseAt 2 0, poseAt 3 1] (List.cons_ne_nil _ _)

/-- Claim C20.  The published speed is not bounded by the configured maximum.  With the default
gains and maximum `m = 2`, goal `(10,10,0)` and a pose at the origin with yaw `π/4`, both
clamped actions are `m` and the published velocity command has linear x component
`2 cos(π/4) + 2 sin(π/4) = 2√2`, of magnitude greater than `m`. -/
theorem published_speed_exceeds_max :
    ∃ s1 s2 tw stw vx, waypointCallback (ParamServer.unset : ParamServer ℝ)
        (Navigator.init ParamServer.unset 0 0 0) [⟨⟨10, 10, 0⟩, Real.pi / 4⟩] = .ok s1 ∧
      0 < s1.trans_max_speed ∧
      poseCallback ParamServer.unset ⟨Real.cos, Real.sin⟩ s1
          ⟨1, 1, ⟨⟨0, 0, 0⟩, Real.pi / 4⟩⟩ = .ok (s2, ⟨some tw, stw, none⟩) ∧
      (clampActions (positionPid 1 (storePose s1 ⟨⟨0, 0, 0⟩, Real.pi / 4⟩))).action_x
        = .fin s1.trans_max_speed ∧
      (clampActions (positionPid 1 (storePose s1 ⟨⟨0, 0, 0⟩, Real.pi / 4⟩))).action_y
        = .fin s1.trans_max_speed ∧
      tw.linear.x = .fin vx ∧ |vx| > s1.trans_max_speed := by
  obtain ⟨s1, h1, -, hh, hr, hm, -, ht, hy, hg, hq⟩ :=
    waypointCallback_inv (ParamServer.unset : ParamServer ℝ)
      (Navigator.init ParamServer.unset 0 0 0) [⟨⟨10, 10, 0⟩, Real.pi / 4⟩]
      (List.cons_ne_nil _ _)
  have hg' : s1.current_goal = ⟨⟨10, 10, 0⟩, Real.pi / 4⟩ := by simpa using hg.symm
  have hfields : s1.trans_max_speed = 2 ∧ s1.x_kp = 1 / 2 ∧ s1.y_kp = 1 / 2 ∧ s1.x_ki = 0 ∧
      s1.y_ki = 0 ∧ s1.x_kd = 0 ∧ s1.y_kd = 0 ∧ s1.dt = 0 := by
    simp only [waypointCallback, Except.ok.injEq] at h1
    subst h1
    simp [Navigator.init, param, ParamServer.unset]
  obtain ⟨f1, f2, f3, f4, f5, f6, f7, f8⟩ := hfields
  obtain ⟨s2, stw, h2⟩ := poseCallback_away_out ParamServer.unset ⟨Real.cos, Real.sin⟩ s1
    ⟨1, 1, ⟨⟨0, 0, 0⟩, Real.pi / 4⟩⟩ (by simp [hr])
    (by norm_num [hg', ht, param, ParamServer.unset, abs_le])
  have hcx : (clampActions (positionPid 1 (storePose s1 ⟨⟨0, 0, 0⟩, Real.pi / 4⟩))).action_x
      = .fin 2 := by
    norm_num [storePose, positionPid, clampActions, clampVal, clamp, sign, fdiv, hg', f1, f2,
      f4, f6, f8, Val.add]
  have hcy : (clampActions (positionPid 1 (storePose s1 ⟨⟨0, 0, 0⟩, Real.pi / 4⟩))).action_y
      = .fin 2 := by
    norm_num [storePose, positionPid, clampActions, clampVal, clamp, sign, fdiv, hg', f1, f3,
      f5, f7, f8, Val.add]
  have hrot := (rotateActions_values ⟨Real.cos, Real.sin⟩ (Real.pi / 4) 2 2 _ hcx hcy).1
  have hsqrt : (1 : ℝ) < Real.sqrt 2 := by
    rw [Real.lt_sqrt (by norm_num)]
    norm_num
  refine ⟨s1, s2, _, stw, 2 * Real.cos (Real.pi / 4) + 2 * Real.sin (Real.pi / 4), h1,
    by rw [f1]; norm_num, h2, by rw [hcx, f1], by rw [hcy, f1], ?_, ?_⟩
  · rw [(beforeArrival_twist_xy _ s1 _).1]
    exact hrot
  · rw [f1, Real.cos_pi_div_four, Real.sin_pi_div_four, abs_of_pos (by positivity)]
    linarith

end Claims

end navigate
